import Mathlib

/-!
Verification development for the mysql.migrator repository.

Shallow embedding of the table-data transfer engine (`src/db.py`) and the
fleet orchestration (`src/main.py`).  Pure functions of the Python source are
translated to Lean functions; the stateful batch-copy loop of
`migrate_table_data` is translated to an explicit state-passing step function
driven by per-iteration oracles (`IterEnv`) that supply the answers of the
database server (rows fetched, errors raised, measured elapsed time).
Python integers are modelled as `Int` (arbitrary precision), Python's floor
division `//` as `Int.fdiv`, and the rounded float batch duration as `ℚ`.
Progress-bar rendering calls (`create_pbar`/`update_pbar`/`set_description`)
are side-effect-only collaborators (spec §1, §6) and are not modelled as
actions, but the *binding state* of the `progress` local variable is tracked
(`progress_created`), because the Python code reads that local on paths where
it may still be unbound.
-/

namespace Migrator

/-- MySQL field-type constants (`mysql.connector.constants.FieldType`) that the
source references, plus string/blob types used by tables under test. -/
inductive FieldType
  | DECIMAL | TINY | SHORT | LONG | FLOAT | DOUBLE | TIMESTAMP | LONGLONG
  | INT24 | DATE | TIME | DATETIME | YEAR | BIT | ENUM | SET
  | MEDIUM_BLOB | LONG_BLOB | BLOB | VAR_STRING | STRING
deriving DecidableEq, Repr

/-- Python runtime values flowing through the codec.  `temporal` stands for a
`datetime`/`date`/`time` object carrying the string its `isoformat()` returns;
`decimal` carries `str(value)`; `intv` covers Python ints (the only numeric
cell kind the claims exercise); `blob` is an opaque value passed through
unchanged by the codec's final branch. -/
inductive PyObj
  | str (s : String)
  | pyset (elems : List String)
  | pybool (b : Bool)
  | temporal (iso : String)
  | decimal (s : String)
  | none
  | intv (n : Int)
  | blob (id : Nat)
deriving DecidableEq, Repr

/-- A fetched row: the tuple of cell values. -/
abbrev Row := List PyObj

/-- A column of the cursor description: (name, declared field type);
`src_cur.description` entries are used only through indices 0 and 1. -/
abbrev Col := String × FieldType

/-- `escape_column_name` (db.py:101): wrap the name in backticks. -/
def escape_column_name (column_name : String) : String :=
  "`" ++ column_name ++ "`"

/-- `escape_value` (db.py:48).  The branches appear in source order; the
`row` parameter is unused in the source body as well.  In the NULL/DATE branch
the source computes `datetime.strptime('0001-01-01', '%Y-%m-%d').isoformat()`:
`strptime` yields the *datetime* `0001-01-01 00:00:00`, so `isoformat()` is the
full string `"0001-01-01T00:00:00"`, identical to the NULL/DATETIME branch. -/
def escape_value (value : PyObj) (columns : List Col) (index : Nat) (_row : Row) : PyObj :=
  let column_type := (columns.getD index ("", FieldType.LONG)).2
  match value with
  | .str s =>
      if s.toLower = "true" then .intv 1
      else if s.toLower = "false" then .intv 0
      else .str s
  | .pyset elems => .str (String.intercalate "," elems)
  | .pybool b => .intv (if b then 1 else 0)
  | .temporal iso => .str iso
  | .decimal s => .str s
  | .none =>
      if column_type = FieldType.DATE then .str "0001-01-01T00:00:00"
      else if column_type = FieldType.DATETIME then .str "0001-01-01T00:00:00"
      else if column_type = FieldType.TIMESTAMP then .none
      else .none
  | .intv n => .intv n
  | .blob i => .blob i

/-- The codec applied to a whole fetched row, as both the batch insert
(db.py:526) and the single-row fallback (db.py:726) do:
`tuple(escape_value(value, columns, index, row) for index, value in enumerate(row))`. -/
def escapeRow (columns : List Col) (row : Row) : List PyObj :=
  row.enum.map (fun p => escape_value p.2 columns p.1 row)

/-- Python's `list.index` (used at db.py:444 as `column_names.index(pk)`);
the out-of-range result (list length) stands for the `ValueError` case, which
callers in this development exclude by hypothesis. -/
def list_index (a : String) : List String → Nat
  | [] => 0
  | x :: xs => if x = a then 0 else list_index a xs + 1

/-- The allow-list of single-column primary-key field types accepted for
PK-range pagination (db.py:447-458). -/
def valid_pk_types : List FieldType :=
  [.BIT, .DOUBLE, .ENUM, .FLOAT, .INT24, .LONG, .LONGLONG, .SHORT, .TINY, .YEAR]

/-- `get_table_pk` (db.py:939): first primary-key column name wrapped in
backticks, or `"*"` when the table has no primary key.  The information-schema
answer is the `pkCols` list. -/
def get_table_pk (pkCols : List String) : String :=
  match pkCols with
  | [] => "*"
  | c :: _ => escape_column_name c

/-- The pagination-key value after the setup's downgrade step (db.py:443-464):
when a single PK exists, its type (looked up positionally through
`column_names.index(pk)`) must be in `valid_pk_types`, otherwise `pk` is
overwritten with `"*"`. -/
def pk_after_downgrade (pkCols : List String) (columns : List Col) : String :=
  let pk := get_table_pk pkCols
  if pk ≠ "*" ∧ pkCols.length = 1 then
    let column_names := columns.map (fun c => escape_column_name c.1)
    let pk_index := list_index pk column_names
    if (columns.getD pk_index ("", FieldType.LONG)).2 ∈ valid_pk_types then pk else "*"
  else pk

/-- The loop's pagination dispatch (db.py:495): PK-range pagination is used
iff `pk != '*' and pk_count == 1` after the downgrade. -/
def uses_pk_pagination (pkCols : List String) (columns : List Col) : Bool :=
  decide (pk_after_downgrade pkCols columns ≠ "*" ∧ pkCols.length = 1)

/-- The column index of the pagination key (db.py:444), 0 when unused. -/
def pk_index_of (pkCols : List String) (columns : List Col) : Nat :=
  if get_table_pk pkCols ≠ "*" ∧ pkCols.length = 1 then
    list_index (get_table_pk pkCols) (columns.map (fun c => escape_column_name c.1))
  else 0

/-- Spec-side predicate, phrased from the spec's words ("the table has exactly
one primary-key column whose field type is in the fixed allow-list"): exactly
one PK column, and the declared type of the (first) table column bearing that
name is in the allow-list.  Stated independently of the source's positional
index arithmetic, for the refinement proof of C4. -/
def spec_uses_pk_range (pkCols : List String) (columns : List Col) : Bool :=
  match pkCols with
  | [c] =>
      match columns.find? (fun col => col.1 = c) with
      | some col => valid_pk_types.contains col.2
      | Option.none => false
  | _ => false

/-- Python exceptions relevant to the engine: `mysql.connector.Error` values
carry their `errno`; every other exception kind is `other` with a tag
("NameError", "TypeError", ...). -/
inductive PyErr
  | mysql (errno : Int)
  | other (tag : String)
deriving DecidableEq, Repr

/-- A side of the connection pair. -/
inductive Side
  | src | dst
deriving DecidableEq, Repr

/-- The individual statements/configuration steps `reconnect_to_db` performs. -/
inductive RAction
  | reconnectConn (side : Side) (attempts delay : Nat)
  | autocommitOff
  | configureSession (side : Side)
  | useDb (side : Side) (db : String)
deriving DecidableEq, Repr

/-- `reconnect_to_db` (db.py:870-902): reconnect both connections with
3 attempts / 5-second delay, turn destination autocommit off, reapply the
session configuration to both cursors, then `USE` the given databases —
*only for the sides whose database argument is provided*. -/
def reconnect_to_db_actions (src_db dst_db : Option String) : List RAction :=
  [.reconnectConn .src 3 5, .reconnectConn .dst 3 5, .autocommitOff,
   .configureSession .src, .configureSession .dst]
  ++ (match src_db with | some d => [RAction.useDb .src d] | Option.none => [])
  ++ (match dst_db with | some d => [RAction.useDb .dst d] | Option.none => [])

/-- The shape of the SELECT the loop issues (db.py:495-498). -/
inductive FetchQuery
  | byOffset (limit offset : Int)
  | byPkRange (pk : String) (fromPk limit : Int)
deriving DecidableEq, Repr

/-- Observable database-facing actions of one table transfer. -/
inductive Action
  | fetch (q : FetchQuery)
  | insertBatch (stmts : List (List PyObj))
  | insertSingle (stmt : List PyObj) (raised : Option PyErr)
  | reconnectSeq (steps : List RAction)
  | throttleSleep (seconds : ℚ)
deriving DecidableEq, Repr

/-- The mutable locals of `migrate_table_data`'s main loop.  `lastRows` is the
current binding of the Python local `rows` (`none` = not yet bound to a fetched
batch); `progress_created` mirrors the flag of db.py:484/508-509 — the local
`progress` is bound exactly when it is true. -/
structure LoopState where
  batch_size : Int
  increment_batch : Int
  increment_batch_blocks : Int
  offset : Int
  first_pk : Int
  lastRows : Option (List Row)
  progress_created : Bool
deriving DecidableEq, Repr

/-- The per-table constants the loop reads (fixed by the setup phase). -/
structure TableParams where
  pk : String
  pk_active : Bool
  pk_index : Nat
  row_count : Int
  calculated_batch_size : Int
  db_name : String
  table_name : String
  columns : List Col
deriving DecidableEq, Repr

/-- Oracle for one loop iteration: what the servers answer.  `fetch` is the
outcome of the SELECT + fetchall, `insert` of `executemany` (`none` = ok),
`single i` the outcome of the i-th individual insert should the single-row
fallback run, `reconnect` the outcome of `reconnect_to_db` should it run, and
`elapsed` the rounded duration `difference` measured at db.py:575. -/
structure IterEnv where
  fetch : Except PyErr (List Row)
  insert : Option PyErr
  single : Nat → Option PyErr
  reconnect : Option PyErr
  elapsed : ℚ

/-- Outcome of one loop iteration: go on, leave the loop, or
`return False, e`. -/
inductive StepOutcome
  | next (s : LoopState)
  | brk (s : LoopState)
  | fail (e : PyErr) (s : LoopState)
deriving DecidableEq, Repr

/-- One iteration's outcome together with the actions it performed. -/
structure StepResult where
  out : StepOutcome
  acts : List Action
deriving DecidableEq, Repr

/-- The batch-size boost block (db.py:531-538): count the successful batch;
on the 10th consecutive one, open a new boost block of `boost = 2048`
(db.py:481) rows, set
`batch_size = min(calculated_batch_size + blocks*2048, batch_size*6)` and
reset the consecutive counter.  Returns (batch_size, increment_batch,
increment_batch_blocks). -/
def boostUpdate (calculated_batch_size bs inc blocks : Int) : Int × Int × Int :=
  let inc1 := inc + 1
  if inc1 = 10 then
    (min (calculated_batch_size + (blocks + 1) * 2048) (bs * 6), 0, blocks + 1)
  else (bs, inc1, blocks)

/-- The timing-based throttle (db.py:575-610) applied after a batch was
written: over 4 seconds halve the size (floor 1), zero both counters and
sleep `min(difference // 4, 60)`; over 2 seconds halve the size and decrement
both counters (floor 0) with no sleep; otherwise change nothing.  Returns
(batch_size, increment_batch, increment_batch_blocks, sleep). -/
def throttle (elapsed : ℚ) (bs inc blocks : Int) : Int × Int × Int × Option ℚ :=
  if elapsed > 4 then
    (max 1 (Int.fdiv bs 2), 0, 0, some (min ((⌊elapsed / 4⌋ : ℤ) : ℚ) 60))
  else if elapsed > 2 then
    (max 1 (Int.fdiv bs 2), max 0 (inc - 1), max 0 (blocks - 1), Option.none)
  else (bs, inc, blocks, Option.none)

/-- `on_error_insert_single` (db.py:704-737): insert the batch row by row,
each row escaped by the same codec; a row whose insert raises
`mysql.connector.Error` with errno 1062 is skipped (`continue`); any other
error is re-raised, aborting the walk.  Returns the attempted statements with
their per-row outcome, and the re-raised error if any. -/
def on_error_insert_single (columns : List Col) (single : Nat → Option PyErr) :
    List Row → Nat → List (List PyObj × Option PyErr) × Option PyErr
  | [], _ => ([], Option.none)
  | r :: rs, i =>
    let stmt := escapeRow columns r
    match single i with
    | Option.none =>
        let q := on_error_insert_single columns single rs (i + 1)
        ((stmt, Option.none) :: q.1, q.2)
    | some er =>
        if er = .mysql 1062 then
          let q := on_error_insert_single columns single rs (i + 1)
          ((stmt, some er) :: q.1, q.2)
        else ([(stmt, some er)], some er)

/-- The code that follows the try/except of a written batch (db.py:568-631):
advance `offset` by the number of rows of the batch, apply the timing
throttle, and `break` once the offset has consumed the row count. -/
def after_batch (p : TableParams) (s : LoopState) (n : Nat) (e : IterEnv)
    (acts : List Action) : StepResult :=
  let s1 := { s with offset := s.offset + n }
  let t := throttle e.elapsed s1.batch_size s1.increment_batch s1.increment_batch_blocks
  let s2 := { s1 with batch_size := t.1, increment_batch := t.2.1,
                      increment_batch_blocks := t.2.2.1 }
  let acts2 := acts ++ (match t.2.2.2 with
    | some q => [Action.throttleSleep q]
    | Option.none => [])
  if s2.offset ≥ p.row_count then ⟨.brk s2, acts2⟩ else ⟨.next s2, acts2⟩

/-- The `except` clauses of the main loop (db.py:539-566).  On errno
1062/1064 the single-row fallback runs on the current binding of `rows`
(unbound = the NameError path); on errno 2013 the pair is reconnected — with
`reconnect_to_db(src_conn, dst_conn, src_cur, dst_cur, db_name)`, i.e.
`src_db = db_name`, `dst_db = None` — the batch size is divided by 8
(floor 1) and the loop continues, except that the progress-bar update of
db.py:557 raises NameError when `progress` is still unbound; every other
error is returned as `(False, ex)`. -/
def handle_loop_error (p : TableParams) (s : LoopState) (e : IterEnv)
    (er : PyErr) (preActs : List Action) : StepResult :=
  match er with
  | .mysql n =>
    if n = 1062 ∨ n = 1064 then
      match s.lastRows with
      | Option.none => ⟨.fail (.other "NameError") s, preActs⟩
      | some rs =>
        let q := on_error_insert_single p.columns e.single rs 0
        let acts := preActs ++ q.1.map (fun a => Action.insertSingle a.1 a.2)
        match q.2 with
        | some er2 => ⟨.fail er2 s, acts⟩
        | Option.none => after_batch p s rs.length e acts
    else if n = 2013 then
      match e.reconnect with
      | some er2 => ⟨.fail er2 s, preActs⟩
      | Option.none =>
        let s2 := { s with batch_size := max 1 (Int.fdiv s.batch_size 8) }
        let acts := preActs ++ [Action.reconnectSeq
          (reconnect_to_db_actions (some p.db_name) Option.none)]
        if s.progress_created then ⟨.next s2, acts⟩
        else ⟨.fail (.other "NameError") s2, acts⟩
    else ⟨.fail (.mysql n) s, preActs⟩
  | .other t => ⟨.fail (.other t) s, preActs⟩

/-- The SELECT the iteration issues, depending on the pagination mode
(db.py:495-498). -/
def fetchQueryOf (p : TableParams) (s : LoopState) : FetchQuery :=
  if p.pk_active then .byPkRange p.pk s.first_pk s.batch_size
  else .byOffset s.batch_size s.offset

/-- One iteration of the main loop of `migrate_table_data` (db.py:488-635):
fetch, break on an empty page, advance the PK cursor to (last row's PK + 1),
codec-escape and bulk-insert the batch, run the boost block, then the
post-batch offset/throttle code; errors are dispatched by
`handle_loop_error`. -/
def migrateStep (p : TableParams) (s : LoopState) (e : IterEnv) : StepResult :=
  let fq := Action.fetch (fetchQueryOf p s)
  match e.fetch with
  | .error er => handle_loop_error p s e er [fq]
  | .ok rows =>
    if rows.isEmpty then ⟨.brk s, [fq]⟩
    else
      let s1 := { s with progress_created := true, lastRows := some rows }
      let cell := (rows.getLastD []).getD p.pk_index PyObj.none
      let adv : Except PyErr LoopState :=
        if p.pk_active then
          match cell with
          | .intv v => .ok { s1 with first_pk := v + 1 }
          | _ => .error (.other "TypeError")
        else .ok s1
      match adv with
      | .error er => ⟨.fail er s1, [fq]⟩
      | .ok s2 =>
        let ib := Action.insertBatch (rows.map (escapeRow p.columns))
        match e.insert with
        | some er => handle_loop_error p s2 e er [fq, ib]
        | Option.none =>
          let b := boostUpdate p.calculated_batch_size s2.batch_size s2.increment_batch
                     s2.increment_batch_blocks
          after_batch p { s2 with batch_size := b.1, increment_batch := b.2.1,
                                  increment_batch_blocks := b.2.2 }
            rows.length e [fq, ib]

/-- The observable result of a table transfer: an uncaught exception, the
`(success, error)` pair returned by the function (with the loop's final state
when the loop ran), or fuel exhaustion of the model. -/
inductive MigrateResult
  | thrown (e : PyErr)
  | finished (ok : Bool) (err : Option PyErr) (final : Option LoopState)
  | fuelOut (s : LoopState)
deriving DecidableEq, Repr

/-- The `while offset < row_count` loop (db.py:488-642) driven by one oracle
per iteration.  Returning inside the loop (`return False, ex`) skips the
trailing `close_pbar(progress)`; leaving the loop reaches it, which raises
NameError when `progress` was never bound (db.py:638). -/
def runLoop (p : TableParams) : List IterEnv → LoopState → MigrateResult × List Action
  | envs, s =>
    if s.offset < p.row_count then
      match envs with
      | [] => (.fuelOut s, [])
      | e :: rest =>
        let r := migrateStep p s e
        match r.out with
        | .next s' =>
            let q := runLoop p rest s'
            (q.1, r.acts ++ q.2)
        | .brk s' =>
            if s'.progress_created then (.finished true Option.none (some s'), r.acts)
            else (.thrown (.other "NameError"), r.acts)
        | .fail er s' => (.finished false (some er) (some s'), r.acts)
    else
      if s.progress_created then (.finished true Option.none (some s), [])
      else (.thrown (.other "NameError"), [])

/-- The table metadata the setup phase queries (db.py:410-436): the
information-schema's PK column list, the cursor description, the COUNT
result, and the minimum PK value. -/
structure TableInfo where
  pkCols : List String
  columns : List Col
  row_count : Int
  first_pk0 : Int
deriving DecidableEq, Repr

/-- The initial batch size derivation (db.py:439,467-475): the caller's
baseline, divided by 5 when any column is a MEDIUM_BLOB or LONG_BLOB. -/
def initial_batch_size_int (original : Int) (columns : List Col) : Int :=
  if columns.any (fun c => c.2 = FieldType.MEDIUM_BLOB ∨ c.2 = FieldType.LONG_BLOB)
  then Int.fdiv original 5 else original

/-- `migrate_table_data` (db.py:388-642).  The setup phase (db.py:410-485)
runs outside any try/except; `setupFail = some e` stands for one of its
statements raising, which the function propagates (`.thrown`).  On a zero
row count it returns `(True, None)` before fetching anything.  Otherwise the
pagination key, cursor, and batch size are derived and the main loop runs on
the iteration oracles. -/
def migrate_table_data (info : TableInfo) (setupFail : Option PyErr)
    (envs : List IterEnv) (original_batch_size : Int)
    (db_name table_name : String) : MigrateResult × List Action :=
  match setupFail with
  | some er => (.thrown er, [])
  | Option.none =>
    if info.row_count = 0 then (.finished true Option.none Option.none, [])
    else
      let batch_size := initial_batch_size_int original_batch_size info.columns
      let p : TableParams := {
        pk := pk_after_downgrade info.pkCols info.columns,
        pk_active := uses_pk_pagination info.pkCols info.columns,
        pk_index := pk_index_of info.pkCols info.columns,
        row_count := info.row_count,
        calculated_batch_size := batch_size,
        db_name := db_name,
        table_name := table_name,
        columns := info.columns }
      runLoop p envs {
        batch_size := batch_size,
        increment_batch := 0,
        increment_batch_blocks := 0,
        offset := 0,
        first_pk := if get_table_pk info.pkCols ≠ "*" ∧ info.pkCols.length = 1
                    then info.first_pk0 else 0,
        lastRows := Option.none,
        progress_created := false }

/-- The loop state carried by a step outcome (the values of the Python locals
at the point the outcome was decided). -/
def StepOutcome.stateOf : StepOutcome → LoopState
  | .next s => s
  | .brk s => s
  | .fail _ s => s

/-- Whether a step outcome is the `return False, ex` case. -/
def StepOutcome.isFail : StepOutcome → Bool
  | .fail _ _ => true
  | _ => false

/-- Whether a transfer result is the model's fuel-exhaustion marker. -/
def MigrateResult.isFuelOut : MigrateResult → Bool
  | .fuelOut _ => true
  | _ => false

/-- The cooldown sleeps among a list of actions. -/
def sleepsOf (acts : List Action) : List ℚ :=
  acts.filterMap (fun a => match a with
    | .throttleSleep q => some q
    | _ => Option.none)

/-- The rows an iteration oracle fetches (empty for an erroring fetch). -/
def envRows (e : IterEnv) : List Row :=
  match e.fetch with
  | .ok rs => rs
  | .error _ => []

/-- Total number of rows the oracles deliver. -/
def totalRows (envs : List IterEnv) : Nat :=
  (envs.map (fun e => (envRows e).length)).sum

/-- A "good" iteration for the boost scenario: the fetch succeeds with a
nonempty page, the bulk insert succeeds, the measured time is at most 2
seconds, and (when PK pagination is active) the last row's PK cell is an
integer. -/
def GoodEnv (p : TableParams) (e : IterEnv) : Prop :=
  e.fetch = .ok (envRows e) ∧ envRows e ≠ [] ∧ e.insert = Option.none ∧
  e.elapsed ≤ 2 ∧
  (p.pk_active = true →
    ∃ v, ((envRows e).getLastD []).getD p.pk_index PyObj.none = PyObj.intv v)

/-- An iteration in which no connection-lost (errno 2013) error occurs. -/
def No2013 (e : IterEnv) : Prop :=
  e.fetch ≠ .error (.mysql 2013) ∧ e.insert ≠ some (.mysql 2013)

/-- An iteration that fetches a nonempty page and writes it cleanly (any
measured duration); with PK pagination active, the last row's PK cell is an
integer. -/
def ProductiveEnv (p : TableParams) (e : IterEnv) : Prop :=
  e.fetch = .ok (envRows e) ∧ envRows e ≠ [] ∧ e.insert = Option.none ∧
  (p.pk_active = true →
    ∃ v, ((envRows e).getLastD []).getD p.pk_index PyObj.none = PyObj.intv v)

/-- Iterating the boost block over consecutive successful fast batches. -/
def boostIter (calculated_batch_size : Int) : Nat → Int × Int × Int → Int × Int × Int
  | 0, t => t
  | n + 1, t => boostIter calculated_batch_size n (boostUpdate calculated_batch_size t.1 t.2.1 t.2.2)

/-! ### Orchestration model (`migrate_database`, `run_migration_threads`)

The per-database orchestration of db.py:178-385 and main.py:164-191 is
modelled by outcome oracles per database (`DbEnv`) and an action trace of the
destination-visible failure bookkeeping. -/

/-- Destination-facing bookkeeping actions of the per-database orchestration. -/
inductive FleetAction
  | rollback (db : String)
  | commit (db : String)
  | dropDatabase (db : String)
  | addFailed (db : String)
deriving DecidableEq, Repr

/-- Outcome oracle for one database's migration: whether the schema-creation
body succeeds, the per-table results of `migrate_table_data` paired with the
`migration_success` row-count comparison, and the return value of
`migrate_procedures`' body. -/
structure DbEnv where
  schemaOk : Bool
  tableResults : List (Bool × Bool)
  proceduresOk : Bool
deriving DecidableEq, Repr

/-- `migrate_schema` (db.py:178-231): on any failure it records the database
in the failure ledger, drops the destination database, and re-raises.  The
returned Bool is "completed without exception". -/
def migrate_schema (db : String) (env : DbEnv) : Bool × List FleetAction :=
  if env.schemaOk then (true, [])
  else (false, [.addFailed db, .dropDatabase db])

/-- `migrate_database_tables` (db.py:316-385): all table transfers run inside
one destination transaction; the first table whose transfer flag is false or
whose row-count verification fails triggers a rollback and an exception;
otherwise the transaction commits.  The Bool is "completed without
exception". -/
def migrate_database_tables (db : String) (env : DbEnv) : Bool × List FleetAction :=
  if env.tableResults.all (fun t => t.1 && t.2) then (true, [.commit db])
  else (false, [.rollback db])

/-- `migrate_procedures` (db.py:234-283): on failure it records the database
in the ledger, drops the destination database and **returns False** — it does
not raise.  The Bool is its return value. -/
def migrate_procedures (db : String) (env : DbEnv) : Bool × List FleetAction :=
  if env.proceduresOk then (true, [])
  else (false, [.addFailed db, .dropDatabase db])

/-- `migrate_database` (db.py:286-313): schema, then table data, then
procedures; any exception is caught, the database is recorded in the ledger,
dropped, and the exception re-raised.  The return value of
`migrate_procedures` is ignored (db.py:302), so a procedures failure does not
reach the except block.  The Bool is "completed without exception". -/
def migrate_database (db : String) (env : DbEnv) : Bool × List FleetAction :=
  let sres := migrate_schema db env
  if !sres.1 then
    (false, sres.2 ++ [.addFailed db, .dropDatabase db])
  else
    let tres := migrate_database_tables db env
    if !tres.1 then
      (false, sres.2 ++ tres.2 ++ [.addFailed db, .dropDatabase db])
    else
      let pres := migrate_procedures db env
      (true, sres.2 ++ tres.2 ++ pres.2)

/-- `run_migration_threads` (main.py:164-191): one task per database; a task
that raises flips `all_process_ok` to False; every database is processed
regardless of sibling failures. -/
def run_migration_threads (dbs : List String) (envs : String → DbEnv) :
    Bool × List FleetAction :=
  dbs.foldl
    (fun acc db =>
      let r := migrate_database db (envs db)
      (acc.1 && r.1, acc.2 ++ r.2))
    (true, [])

/-! ### The batch-size argument actually passed by the fleet (main.py:179)

`run_migration_threads` submits `migrate_database(db, args)` where `args` is
the whole `argparse.Namespace`, not `args.batch_size`; `PyVal` models the
dynamic type of the value that reaches `migrate_table_data`'s
`original_batch_size`. -/

/-- The parsed CLI arguments (main.py:223-258). -/
structure ArgsNS where
  batch_size : Int
  skip_dbs : Bool
  keep_dbs : Bool
  grants : Bool
  db_thcount : Int
  table_thcount : Int
  check : Bool
deriving DecidableEq, Repr

/-- The CLI defaults (main.py:236-256); both thread counts default to
`floor(sqrt(cpu_count))`, supplied here as `thc`. -/
def default_args (thc : Int) : ArgsNS :=
  { batch_size := 2048, skip_dbs := false, keep_dbs := false, grants := false,
    db_thcount := thc, table_thcount := thc, check := false }

/-- A Python value that may sit in an int-typed position. -/
inductive PyVal
  | int (n : Int)
  | namespaceV (a : ArgsNS)
deriving DecidableEq, Repr

/-- The second argument of the `migrate_database(db, args)` call submitted by
`run_migration_threads` (main.py:179): the namespace itself. -/
def run_migration_threads_batch_arg (args : ArgsNS) : PyVal :=
  .namespaceV args

/-- Python `//` on such a value: a Namespace supports no floor division, so
the interpreter raises TypeError. -/
def pyFloorDiv (v : PyVal) (d : Int) : Except PyErr PyVal :=
  match v with
  | .int n => .ok (.int (Int.fdiv n d))
  | .namespaceV _ => .error (.other "TypeError")

/-- db.py:439,467-475 on the dynamically-typed `original_batch_size`:
`batch_size = original_batch_size`, then `batch_size = batch_size // 5` when
a MEDIUM_BLOB/LONG_BLOB column is present. -/
def initial_batch_size_py (original : PyVal) (has_long_columns : Bool) :
    Except PyErr PyVal :=
  if has_long_columns then pyFloorDiv original 5 else .ok original

/-! ## Helper lemmas -/

theorem escape_column_name_inj {a b : String}
    (h : escape_column_name a = escape_column_name b) : a = b := by
  unfold escape_column_name at h
  have hd := congrArg String.data h
  simp [String.data_append] at hd
  exact String.ext hd

theorem escape_column_name_ne_star (c : String) : escape_column_name c ≠ "*" := by
  unfold escape_column_name
  intro h
  have hd := congrArg String.data h
  simp [String.data_append] at hd

/-- The positional column lookup of the setup (index-of over escaped names,
then positional access) agrees with a first-match search by raw name. -/
theorem find_agree (c : String) : ∀ (columns : List Col),
    c ∈ columns.map Prod.fst →
    ∃ col, columns.find? (fun x => x.1 = c) = some col ∧
      columns.getD
        (list_index (escape_column_name c)
          (columns.map (fun x => escape_column_name x.1)))
        ("", FieldType.LONG) = col := by
  intro columns
  induction columns with
  | nil => intro h; simp at h
  | cons hd tl ih =>
    intro h
    by_cases hc : hd.1 = c
    · refine ⟨hd, ?_, ?_⟩
      · simp [List.find?, hc]
      · simp [List.map, list_index, hc]
    · have h' : c ∈ tl.map Prod.fst := by
        rw [List.map_cons, List.mem_cons] at h
        rcases h with h0 | h0
        · exact absurd h0.symm hc
        · exact h0
      obtain ⟨col, h1, h2⟩ := ih h'
      have hne : escape_column_name hd.1 ≠ escape_column_name c :=
        fun hh => hc (escape_column_name_inj hh)
      refine ⟨col, ?_, ?_⟩
      · simp [List.find?, hc, h1]
      · simp only [List.map_cons, list_index, if_neg hne, List.getD_cons_succ]
        exact h2

/-- The state a step outcome carries after the post-batch bookkeeping. -/
theorem after_batch_stateOf (p : TableParams) (s : LoopState) (n : Nat)
    (e : IterEnv) (acts : List Action) :
    (after_batch p s n e acts).out.stateOf =
      { s with offset := s.offset + n,
               batch_size :=
                 (throttle e.elapsed s.batch_size s.increment_batch
                   s.increment_batch_blocks).1,
               increment_batch :=
                 (throttle e.elapsed s.batch_size s.increment_batch
                   s.increment_batch_blocks).2.1,
               increment_batch_blocks :=
                 (throttle e.elapsed s.batch_size s.increment_batch
                   s.increment_batch_blocks).2.2.1 } := by
  simp only [after_batch]
  split <;> rfl

/-- The sleeps a step emits after the post-batch bookkeeping. -/
theorem after_batch_sleeps (p : TableParams) (s : LoopState) (n : Nat)
    (e : IterEnv) (acts : List Action) :
    sleepsOf (after_batch p s n e acts).acts =
      sleepsOf acts ++
      (match (throttle e.elapsed s.batch_size s.increment_batch
          s.increment_batch_blocks).2.2.2 with
       | some q => [q]
       | Option.none => []) := by
  cases h : (throttle e.elapsed s.batch_size s.increment_batch
      s.increment_batch_blocks).2.2.2 with
  | none =>
      simp only [after_batch, h]
      split <;> simp [sleepsOf, List.filterMap_append]
  | some q =>
      simp only [after_batch, h]
      split <;> simp [sleepsOf, List.filterMap_append]

/-- A step with a successful batch is never `return False, e`. -/
theorem after_batch_not_fail (p : TableParams) (s : LoopState) (n : Nat)
    (e : IterEnv) (acts : List Action) :
    (after_batch p s n e acts).out.isFail = false := by
  simp only [after_batch]
  split <;> rfl

/-- Normal form of a fully successful iteration under PK pagination. -/
theorem migrateStep_success_pk (p : TableParams) (s : LoopState) (e : IterEnv)
    (rows : List Row) (v : Int)
    (hf : e.fetch = .ok rows) (hne : rows ≠ [])
    (hpa : p.pk_active = true)
    (hcell : (rows.getLastD []).getD p.pk_index PyObj.none = PyObj.intv v)
    (hins : e.insert = Option.none) :
    migrateStep p s e =
      after_batch p
        { s with progress_created := true, lastRows := some rows,
                 first_pk := v + 1,
                 batch_size :=
                   (boostUpdate p.calculated_batch_size s.batch_size
                     s.increment_batch s.increment_batch_blocks).1,
                 increment_batch :=
                   (boostUpdate p.calculated_batch_size s.batch_size
                     s.increment_batch s.increment_batch_blocks).2.1,
                 increment_batch_blocks :=
                   (boostUpdate p.calculated_batch_size s.batch_size
                     s.increment_batch s.increment_batch_blocks).2.2 }
        rows.length e
        [Action.fetch (fetchQueryOf p s),
         Action.insertBatch (rows.map (escapeRow p.columns))] := by
  have hne' : rows.isEmpty = false := by
    cases rows with
    | nil => exact absurd rfl hne
    | cons a l => rfl
  unfold migrateStep
  rw [hf]
  simp only [hne', Bool.false_eq_true, if_false, hpa, if_true, hcell, hins]

/-- Normal form of a fully successful iteration under offset pagination. -/
theorem migrateStep_success_nopk (p : TableParams) (s : LoopState) (e : IterEnv)
    (rows : List Row)
    (hf : e.fetch = .ok rows) (hne : rows ≠ [])
    (hpa : p.pk_active = false)
    (hins : e.insert = Option.none) :
    migrateStep p s e =
      after_batch p
        { s with progress_created := true, lastRows := some rows,
                 batch_size :=
                   (boostUpdate p.calculated_batch_size s.batch_size
                     s.increment_batch s.increment_batch_blocks).1,
                 increment_batch :=
                   (boostUpdate p.calculated_batch_size s.batch_size
                     s.increment_batch s.increment_batch_blocks).2.1,
                 increment_batch_blocks :=
                   (boostUpdate p.calculated_batch_size s.batch_size
                     s.increment_batch s.increment_batch_blocks).2.2 }
        rows.length e
        [Action.fetch (fetchQueryOf p s),
         Action.insertBatch (rows.map (escapeRow p.columns))] := by
  have hne' : rows.isEmpty = false := by
    cases rows with
    | nil => exact absurd rfl hne
    | cons a l => rfl
  unfold migrateStep
  rw [hf]
  simp only [hne', Bool.false_eq_true, if_false, hpa, hins]

/-! ## Claim theorems -/

/-- C6 counterexample: for a NULL cell in a column of declared type DATE,
`escape_value` does not return the date-only sentinel string `"0001-01-01"`
(as the claim states); it returns the full datetime string
`"0001-01-01T00:00:00"`. -/
theorem C6_counterexample :
    escape_value PyObj.none [("d", FieldType.DATE)] 0 [] ≠ PyObj.str "0001-01-01" ∧
    escape_value PyObj.none [("d", FieldType.DATE)] 0 [] = PyObj.str "0001-01-01T00:00:00" := by
  exact ⟨by decide, by decide⟩

/-- C6 (amended): for a NULL input cell, a declared type of DATE or DATETIME
yields the sentinel datetime ISO string `"0001-01-01T00:00:00"` (the DATE
case is *not* date-only, because the source builds a `datetime` and calls
`isoformat()`); TIMESTAMP and every other declared type pass NULL through
unchanged. -/
theorem C6_null_policy (t : FieldType) :
    escape_value PyObj.none [("c", t)] 0 [] =
      (if t = FieldType.DATE ∨ t = FieldType.DATETIME
       then PyObj.str "0001-01-01T00:00:00" else PyObj.none) := by
  cases t <;> decide

/-- C9: the fleet never hands the engine the integer `--batch-size` baseline.
`run_migration_threads` (main.py:179) passes the whole argparse namespace as
`migrate_database`'s `batch_size` parameter, so `migrate_table_data` receives
a Namespace: with a MEDIUM_BLOB/LONG_BLOB column, `batch_size // 5` raises
TypeError; without one, the namespace flows on unchanged and is not the
integer baseline.  The last conjunct shows that the engine-side computation,
given the intended integer, is exactly the claim's `baseline // 5` rule, so
the claim describes the evident intent (the annotated `batch_size: int`
parameter of `migrate_database`). -/
theorem C9_batch_arg_bug :
    initial_batch_size_py (run_migration_threads_batch_arg (default_args 4)) true
        = .error (.other "TypeError") ∧
    initial_batch_size_py (run_migration_threads_batch_arg (default_args 4)) false
        = .ok (.namespaceV (default_args 4)) ∧
    (∀ a : ArgsNS, run_migration_threads_batch_arg a ≠ .int a.batch_size) ∧
    (∀ (b : Int) (hl : Bool),
       initial_batch_size_py (.int b) hl = .ok (.int (if hl then Int.fdiv b 5 else b))) := by
  refine ⟨rfl, rfl, ?_, ?_⟩
  · intro a h
    exact PyVal.noConfusion h
  · intro b hl
    cases hl <;> rfl

/-- C9 witness: at the CLI defaults the value reaching the engine is not the
integer 2048 the claim names. -/
theorem C9_batch_arg_bug_witness :
    run_migration_threads_batch_arg (default_args 4) ≠ PyVal.int 2048 :=
  C9_batch_arg_bug.2.2.1 (default_args 4)

/-- C4: the engine paginates by primary-key range exactly when the table has
one single primary-key column whose declared field type is in the fixed
allow-list (the refinement of the source's positional check against the
spec-side predicate, under the hypothesis that the PK column name occurs in
the cursor description); the emitted SELECT is
`WHERE pk >= cursor ORDER BY pk ASC LIMIT batch_size` under PK pagination and
`LIMIT batch_size OFFSET offset` otherwise; and after a successful batch the
PK cursor advances to (last row's PK value + 1). -/
theorem C4_pagination_strategy :
    (∀ (pkCols : List String) (columns : List Col),
       (∀ c, pkCols = [c] → c ∈ columns.map Prod.fst) →
       uses_pk_pagination pkCols columns = spec_uses_pk_range pkCols columns) ∧
    (∀ (p : TableParams) (s : LoopState),
       fetchQueryOf p s =
         if p.pk_active then FetchQuery.byPkRange p.pk s.first_pk s.batch_size
         else FetchQuery.byOffset s.batch_size s.offset) ∧
    (∀ (p : TableParams) (s : LoopState) (e : IterEnv) (rows : List Row) (v : Int),
       e.fetch = .ok rows → rows ≠ [] → p.pk_active = true →
       (rows.getLastD []).getD p.pk_index PyObj.none = PyObj.intv v →
       e.insert = Option.none →
       (migrateStep p s e).out.stateOf.first_pk = v + 1) := by
  refine ⟨?_, fun p s => rfl, ?_⟩
  · intro pkCols columns hmem
    cases pkCols with
    | nil =>
        simp [uses_pk_pagination, pk_after_downgrade, get_table_pk, spec_uses_pk_range]
    | cons c rest =>
        cases rest with
        | nil =>
            have hc := hmem c rfl
            obtain ⟨col, hfind, hgetD⟩ := find_agree c columns hc
            have hstar := escape_column_name_ne_star c
            simp only [List.getD_eq_getElem?_getD] at hgetD
            by_cases hv : col.2 ∈ valid_pk_types
            · simp [uses_pk_pagination, pk_after_downgrade, get_table_pk,
                    spec_uses_pk_range, hstar, hgetD, hfind, hv]
            · simp [uses_pk_pagination, pk_after_downgrade, get_table_pk,
                    spec_uses_pk_range, hstar, hgetD, hfind, hv]
        | cons d rest2 =>
            simp [uses_pk_pagination, pk_after_downgrade, get_table_pk,
                  spec_uses_pk_range, escape_column_name_ne_star]
  · intro p s e rows v hf hne hpa hcell hins
    rw [migrateStep_success_pk p s e rows v hf hne hpa hcell hins,
        after_batch_stateOf]

/-- C4 witness: a two-column table with an integer single PK paginates by PK
range; the same table with its sole PK being the text column paginates by
offset — in both cases the engine's decision equals the spec predicate. -/
theorem C4_pagination_strategy_witness :
    uses_pk_pagination ["id"] [("id", FieldType.LONG), ("name", FieldType.VAR_STRING)]
      = spec_uses_pk_range ["id"] [("id", FieldType.LONG), ("name", FieldType.VAR_STRING)] ∧
    uses_pk_pagination ["name"] [("id", FieldType.LONG), ("name", FieldType.VAR_STRING)]
      = spec_uses_pk_range ["name"] [("id", FieldType.LONG), ("name", FieldType.VAR_STRING)] ∧
    uses_pk_pagination ["id"] [("id", FieldType.LONG), ("name", FieldType.VAR_STRING)] = true ∧
    uses_pk_pagination ["name"] [("id", FieldType.LONG), ("name", FieldType.VAR_STRING)] = false := by
  refine ⟨C4_pagination_strategy.1 _ _ ?_, C4_pagination_strategy.1 _ _ ?_,
    by decide, by decide⟩
  · intro c h
    injection h with h1 _
    subst h1
    decide
  · intro c h
    injection h with h1 _
    subst h1
    decide

theorem throttle_hot (elapsed : ℚ) (bs inc blocks : Int) (h : elapsed > 4) :
    throttle elapsed bs inc blocks =
      (max 1 (Int.fdiv bs 2), 0, 0, some (min ((⌊elapsed / 4⌋ : ℤ) : ℚ) 60)) := by
  simp [throttle, h]

theorem throttle_warm (elapsed : ℚ) (bs inc blocks : Int)
    (h4 : ¬ elapsed > 4) (h2 : elapsed > 2) :
    throttle elapsed bs inc blocks =
      (max 1 (Int.fdiv bs 2), max 0 (inc - 1), max 0 (blocks - 1), Option.none) := by
  simp [throttle, h4, h2]

theorem throttle_cool (elapsed : ℚ) (bs inc blocks : Int) (h2 : ¬ elapsed > 2) :
    throttle elapsed bs inc blocks = (bs, inc, blocks, Option.none) := by
  have h4 : ¬ elapsed > 4 := fun hh => h2 (lt_trans (by norm_num) hh)
  simp [throttle, h4, h2]

/-- The batch fields and sleeps of a fully successful iteration: the boost
block runs first, then the timing throttle transforms its output. -/
theorem migrateStep_success_throttle (p : TableParams) (s : LoopState)
    (e : IterEnv) (rows : List Row)
    (hf : e.fetch = .ok rows) (hne : rows ≠ []) (hins : e.insert = Option.none)
    (hpk : p.pk_active = true →
      ∃ v, (rows.getLastD []).getD p.pk_index PyObj.none = PyObj.intv v) :
    (migrateStep p s e).out.stateOf.batch_size =
      (throttle e.elapsed
        (boostUpdate p.calculated_batch_size s.batch_size s.increment_batch
          s.increment_batch_blocks).1
        (boostUpdate p.calculated_batch_size s.batch_size s.increment_batch
          s.increment_batch_blocks).2.1
        (boostUpdate p.calculated_batch_size s.batch_size s.increment_batch
          s.increment_batch_blocks).2.2).1 ∧
    (migrateStep p s e).out.stateOf.increment_batch =
      (throttle e.elapsed
        (boostUpdate p.calculated_batch_size s.batch_size s.increment_batch
          s.increment_batch_blocks).1
        (boostUpdate p.calculated_batch_size s.batch_size s.increment_batch
          s.increment_batch_blocks).2.1
        (boostUpdate p.calculated_batch_size s.batch_size s.increment_batch
          s.increment_batch_blocks).2.2).2.1 ∧
    (migrateStep p s e).out.stateOf.increment_batch_blocks =
      (throttle e.elapsed
        (boostUpdate p.calculated_batch_size s.batch_size s.increment_batch
          s.increment_batch_blocks).1
        (boostUpdate p.calculated_batch_size s.batch_size s.increment_batch
          s.increment_batch_blocks).2.1
        (boostUpdate p.calculated_batch_size s.batch_size s.increment_batch
          s.increment_batch_blocks).2.2).2.2.1 ∧
    sleepsOf (migrateStep p s e).acts =
      (match (throttle e.elapsed
          (boostUpdate p.calculated_batch_size s.batch_size s.increment_batch
            s.increment_batch_blocks).1
          (boostUpdate p.calculated_batch_size s.batch_size s.increment_batch
            s.increment_batch_blocks).2.1
          (boostUpdate p.calculated_batch_size s.batch_size s.increment_batch
            s.increment_batch_blocks).2.2).2.2.2 with
        | some q => [q]
        | Option.none => []) := by
  cases hpa : p.pk_active with
  | true =>
      obtain ⟨v, hv⟩ := hpk hpa
      rw [migrateStep_success_pk p s e rows v hf hne hpa hv hins]
      refine ⟨?_, ?_, ?_, ?_⟩
      · rw [after_batch_stateOf]
      · rw [after_batch_stateOf]
      · rw [after_batch_stateOf]
      · rw [after_batch_sleeps]
        simp [sleepsOf]
  | false =>
      rw [migrateStep_success_nopk p s e rows hf hne hpa hins]
      refine ⟨?_, ?_, ?_, ?_⟩
      · rw [after_batch_stateOf]
      · rw [after_batch_stateOf]
      · rw [after_batch_stateOf]
      · rw [after_batch_sleeps]
        simp [sleepsOf]

/-- C2: after a successful batch, the boost block first produces intermediate
counters `b = boostUpdate(...)` (with `b.1` equal to the entering batch size
whenever no boost fires, i.e. the claim's "previousSize"); then the timing
throttle acts on them: over 4 seconds the batch size becomes
`max(1, b.1 // 2)`, both counters reset to 0 and the worker sleeps
`min(elapsed // 4, 60)` seconds (exactly 1 second for a 5-second batch); over
2 (but not 4) seconds the batch size halves the same way, both counters
decrement with floor 0, and no sleep happens; at 2 seconds or less nothing
changes. -/
theorem C2_timing_throttle (p : TableParams) (s : LoopState) (e : IterEnv)
    (rows : List Row)
    (hf : e.fetch = .ok rows) (hne : rows ≠ []) (hins : e.insert = Option.none)
    (hpk : p.pk_active = true →
      ∃ v, (rows.getLastD []).getD p.pk_index PyObj.none = PyObj.intv v) :
    (s.increment_batch + 1 ≠ 10 →
      (boostUpdate p.calculated_batch_size s.batch_size s.increment_batch
        s.increment_batch_blocks).1 = s.batch_size) ∧
    (e.elapsed > 4 →
      (migrateStep p s e).out.stateOf.batch_size =
        max 1 (Int.fdiv (boostUpdate p.calculated_batch_size s.batch_size
          s.increment_batch s.increment_batch_blocks).1 2) ∧
      (migrateStep p s e).out.stateOf.increment_batch = 0 ∧
      (migrateStep p s e).out.stateOf.increment_batch_blocks = 0 ∧
      sleepsOf (migrateStep p s e).acts = [min ((⌊e.elapsed / 4⌋ : ℤ) : ℚ) 60]) ∧
    (e.elapsed > 2 → ¬ e.elapsed > 4 →
      (migrateStep p s e).out.stateOf.batch_size =
        max 1 (Int.fdiv (boostUpdate p.calculated_batch_size s.batch_size
          s.increment_batch s.increment_batch_blocks).1 2) ∧
      (migrateStep p s e).out.stateOf.increment_batch =
        max 0 ((boostUpdate p.calculated_batch_size s.batch_size
          s.increment_batch s.increment_batch_blocks).2.1 - 1) ∧
      (migrateStep p s e).out.stateOf.increment_batch_blocks =
        max 0 ((boostUpdate p.calculated_batch_size s.batch_size
          s.increment_batch s.increment_batch_blocks).2.2 - 1) ∧
      sleepsOf (migrateStep p s e).acts = []) ∧
    (¬ e.elapsed > 2 →
      (migrateStep p s e).out.stateOf.batch_size =
        (boostUpdate p.calculated_batch_size s.batch_size s.increment_batch
          s.increment_batch_blocks).1 ∧
      sleepsOf (migrateStep p s e).acts = []) ∧
    (e.elapsed = 5 → sleepsOf (migrateStep p s e).acts = [1]) := by
  have hm := migrateStep_success_throttle p s e rows hf hne hins hpk
  refine ⟨?_, ?_, ?_, ?_, ?_⟩
  · intro h
    rw [boostUpdate]
    simp [h]
  · intro h4
    rw [throttle_hot _ _ _ _ h4] at hm
    exact ⟨hm.1, hm.2.1, hm.2.2.1, hm.2.2.2⟩
  · intro h2 h4
    rw [throttle_warm _ _ _ _ h4 h2] at hm
    exact ⟨hm.1, hm.2.1, hm.2.2.1, hm.2.2.2⟩
  · intro h2
    rw [throttle_cool _ _ _ _ h2] at hm
    exact ⟨hm.1, hm.2.2.2⟩
  · intro h5
    have h4 : e.elapsed > 4 := by rw [h5]; norm_num
    rw [throttle_hot _ _ _ _ h4] at hm
    rw [hm.2.2.2, h5]
    norm_num

/-- C2 witness: a batch of one row measured at 5 seconds, from a 1024-row
batch size with fresh counters: the new batch size is
`max(1, 1024 // 2) = 512` and the worker sleeps exactly 1 second. -/
theorem C2_timing_throttle_witness :
    (migrateStep
      { pk := "`id`", pk_active := false, pk_index := 0, row_count := 1000,
        calculated_batch_size := 2048, db_name := "appdb", table_name := "t",
        columns := [("id", FieldType.LONG)] }
      { batch_size := 1024, increment_batch := 0, increment_batch_blocks := 0,
        offset := 0, first_pk := 0, lastRows := Option.none,
        progress_created := false }
      { fetch := .ok [[PyObj.intv 7]], insert := Option.none,
        single := fun _ => Option.none, reconnect := Option.none,
        elapsed := 5 }).out.stateOf.batch_size = 512 ∧
    sleepsOf (migrateStep
      { pk := "`id`", pk_active := false, pk_index := 0, row_count := 1000,
        calculated_batch_size := 2048, db_name := "appdb", table_name := "t",
        columns := [("id", FieldType.LONG)] }
      { batch_size := 1024, increment_batch := 0, increment_batch_blocks := 0,
        offset := 0, first_pk := 0, lastRows := Option.none,
        progress_created := false }
      { fetch := .ok [[PyObj.intv 7]], insert := Option.none,
        single := fun _ => Option.none, reconnect := Option.none,
        elapsed := 5 }).acts = [1] := by
  have h := C2_timing_throttle
    { pk := "`id`", pk_active := false, pk_index := 0, row_count := 1000,
      calculated_batch_size := 2048, db_name := "appdb", table_name := "t",
      columns := [("id", FieldType.LONG)] }
    { batch_size := 1024, increment_batch := 0, increment_batch_blocks := 0,
      offset := 0, first_pk := 0, lastRows := Option.none,
      progress_created := false }
    { fetch := .ok [[PyObj.intv 7]], insert := Option.none,
      single := fun _ => Option.none, reconnect := Option.none,
      elapsed := 5 }
    [[PyObj.intv 7]] rfl (by decide) rfl
    (fun hh => absurd hh (by decide))
  refine ⟨?_, h.2.2.2.2 rfl⟩
  rw [(h.2.1 (by decide)).1]
  decide

/-- A successful batch under 2 seconds that does not finish the table
continues the loop with untouched throttle output. -/
theorem after_batch_next (p : TableParams) (s : LoopState) (n : Nat)
    (e : IterEnv) (acts : List Action)
    (hcool : ¬ e.elapsed > 2) (hlt : s.offset + (n : Int) < p.row_count) :
    after_batch p s n e acts = ⟨.next { s with offset := s.offset + n }, acts⟩ := by
  simp only [after_batch, throttle_cool e.elapsed s.batch_size s.increment_batch
    s.increment_batch_blocks hcool]
  rw [if_neg (not_le.mpr hlt)]
  simp

/-- A good iteration (nonempty fetch, clean insert, fast batch) that does not
finish the table: the loop continues, the boost block is the only change to
the batch-size state, and the offset advances by the fetched row count. -/
theorem migrateStep_good_next (p : TableParams) (s : LoopState) (e : IterEnv)
    (hg : GoodEnv p e)
    (hlt : s.offset + ((envRows e).length : Int) < p.row_count) :
    ∃ s' acts, migrateStep p s e = ⟨.next s', acts⟩ ∧
      (s'.batch_size, s'.increment_batch, s'.increment_batch_blocks) =
        boostUpdate p.calculated_batch_size s.batch_size s.increment_batch
          s.increment_batch_blocks ∧
      s'.offset = s.offset + (envRows e).length := by
  obtain ⟨hfeq, hne, hins, hel, hpk⟩ := hg
  have hcool : ¬ e.elapsed > 2 := not_lt.mpr hel
  cases hpa : p.pk_active with
  | true =>
      obtain ⟨v, hv⟩ := hpk hpa
      rw [migrateStep_success_pk p s e (envRows e) v hfeq hne hpa hv hins]
      exact ⟨_, _, after_batch_next p _ (envRows e).length e _ hcool hlt, rfl, rfl⟩
  | false =>
      rw [migrateStep_success_nopk p s e (envRows e) hfeq hne hpa hins]
      exact ⟨_, _, after_batch_next p _ (envRows e).length e _ hcool hlt, rfl, rfl⟩

theorem totalRows_cons (e : IterEnv) (envs : List IterEnv) :
    totalRows (e :: envs) = (envRows e).length + totalRows envs := by
  simp [totalRows]

theorem totalRows_take_le (envs : List IterEnv) (k : Nat) :
    totalRows (envs.take k) ≤ totalRows envs := by
  induction envs generalizing k with
  | nil => simp [totalRows]
  | cons e rest ih =>
      cases k with
      | zero => simp [totalRows]
      | succ k =>
          rw [List.take_succ_cons, totalRows_cons, totalRows_cons]
          exact Nat.add_le_add_left (ih k) _

/-- Running the loop over good iterations that stay short of the row count:
the oracles are all consumed, the batch-size state is the boost-block fold of
the number of batches, and the offset advances by the total fetched rows. -/
theorem runLoop_good (p : TableParams) : ∀ (envs : List IterEnv) (s : LoopState),
    (∀ e ∈ envs, GoodEnv p e) →
    (s.offset + (totalRows envs : Int) < p.row_count) →
    ∃ s' acts, runLoop p envs s = (.fuelOut s', acts) ∧
      (s'.batch_size, s'.increment_batch, s'.increment_batch_blocks) =
        boostIter p.calculated_batch_size envs.length
          (s.batch_size, s.increment_batch, s.increment_batch_blocks) ∧
      s'.offset = s.offset + totalRows envs := by
  intro envs
  induction envs with
  | nil =>
      intro s _ hlt
      have h1 : s.offset < p.row_count := by
        simp only [totalRows, List.map_nil, List.sum_nil] at hlt
        simpa using hlt
      refine ⟨s, [], ?_, rfl, by simp [totalRows]⟩
      simp [runLoop, h1]
  | cons e rest ih =>
      intro s hg hlt
      rw [totalRows_cons] at hlt
      push_cast at hlt
      have h1 : s.offset < p.row_count := by
        have h0 : (0 : Int) ≤ ((envRows e).length : Int) + (totalRows rest : Int) := by
          positivity
        omega
      have hlt1 : s.offset + ((envRows e).length : Int) < p.row_count := by
        have h0 : (0 : Int) ≤ (totalRows rest : Int) := by positivity
        omega
      obtain ⟨s1, acts1, hstep, hb, ho⟩ :=
        migrateStep_good_next p s e (hg e (List.mem_cons_self e rest)) hlt1
      have hg' : ∀ x ∈ rest, GoodEnv p x := fun x hx => hg x (List.mem_cons_of_mem e hx)
      have hlt' : s1.offset + (totalRows rest : Int) < p.row_count := by
        rw [ho]
        omega
      obtain ⟨s2, acts2, hrun, hb2, ho2⟩ := ih s1 hg' hlt'
      refine ⟨s2, acts1 ++ acts2, ?_, ?_, ?_⟩
      · rw [runLoop, if_pos h1]
        simp only [hstep, hrun]
      · rw [hb2, List.length_cons, boostIter, ← hb]
      · rw [ho2, ho, totalRows_cons]
        push_cast
        ring

theorem boostUpdate_small (calculated_batch_size bs inc blocks : Int)
    (h : inc + 1 ≠ 10) :
    boostUpdate calculated_batch_size bs inc blocks = (bs, inc + 1, blocks) := by
  simp [boostUpdate, h]

theorem boostUpdate_fire (calculated_batch_size bs blocks : Int) :
    boostUpdate calculated_batch_size bs 9 blocks =
      (min (calculated_batch_size + (blocks + 1) * 2048) (bs * 6), 0, blocks + 1) := by
  norm_num [boostUpdate]

theorem boostIter_fresh (calculated_batch_size : Int) :
    ∀ (k : Nat) (j : Int), 0 ≤ j → j + k ≤ 9 →
    boostIter calculated_batch_size k (calculated_batch_size, j, 0) =
      (calculated_batch_size, j + k, 0) := by
  intro k
  induction k with
  | zero => intro j _ _; simp [boostIter]
  | succ k ih =>
      intro j hj hk
      have hne : j + 1 ≠ 10 := by omega
      rw [boostIter]
      simp only [boostUpdate_small _ _ _ _ hne]
      rw [ih (j + 1) (by omega) (by push_cast at hk ⊢; omega)]
      congr 1
      push_cast
      ring_nf

theorem boostIter_succ_right (calculated_batch_size : Int) :
    ∀ (n : Nat) (t : Int × Int × Int),
    boostIter calculated_batch_size (n + 1) t =
      (fun u : Int × Int × Int =>
        boostUpdate calculated_batch_size u.1 u.2.1 u.2.2)
        (boostIter calculated_batch_size n t) := by
  intro n
  induction n with
  | zero => intro t; rfl
  | succ n ih =>
      intro t
      rw [boostIter, ih, boostIter]

theorem boostIter_ten (calculated_batch_size : Int) :
    boostIter calculated_batch_size 10 (calculated_batch_size, 0, 0) =
      (min (calculated_batch_size + 2048) (calculated_batch_size * 6), 0, 1) := by
  have h9 := boostIter_fresh calculated_batch_size 9 0 le_rfl (by norm_num)
  rw [show (10 : Nat) = 9 + 1 from rfl, boostIter_succ_right, h9]
  simp only [zero_add]
  rw [show ((9 : Nat) : Int) = (9 : Int) from rfl]
  rw [boostUpdate_fire]
  norm_num

/-- C1: the boost block increments the consecutive-success counter after each
successful batch; when the counter reaches 10 the boost-block counter
increments, the batch size becomes
`min(baseline + boostBlocks*2048, batchSize*6)` and the consecutive counter
resets to 0.  Starting from fresh counters with the batch size at the
baseline, 10 consecutive good batches (each measured at or under 2 seconds)
change the size exactly once — every proper prefix leaves it at the baseline
— and the final size is `min(baseline + 2048, previousSize*6)` with
`previousSize` equal to the baseline the size held throughout. -/
theorem C1_boost (p : TableParams) (s : LoopState) (envs : List IterEnv)
    (hbs : s.batch_size = p.calculated_batch_size)
    (hinc : s.increment_batch = 0) (hblk : s.increment_batch_blocks = 0)
    (hlen : envs.length = 10)
    (hg : ∀ e ∈ envs, GoodEnv p e)
    (hlt : s.offset + (totalRows envs : Int) < p.row_count) :
    (∀ calcv bs inc blocks : Int, inc + 1 ≠ 10 →
      boostUpdate calcv bs inc blocks = (bs, inc + 1, blocks)) ∧
    (∀ calcv bs blocks : Int,
      boostUpdate calcv bs 9 blocks =
        (min (calcv + (blocks + 1) * 2048) (bs * 6), 0, blocks + 1)) ∧
    (∀ k, k < 10 → ∃ s' acts, runLoop p (envs.take k) s = (.fuelOut s', acts) ∧
      s'.batch_size = p.calculated_batch_size) ∧
    (∃ s' acts, runLoop p envs s = (.fuelOut s', acts) ∧
      s'.batch_size =
        min (p.calculated_batch_size + 2048) (p.calculated_batch_size * 6) ∧
      s'.increment_batch = 0 ∧ s'.increment_batch_blocks = 1) := by
  refine ⟨boostUpdate_small, boostUpdate_fire, ?_, ?_⟩
  · intro k hk
    have hgk : ∀ e ∈ envs.take k, GoodEnv p e :=
      fun e he => hg e (List.take_subset k envs he)
    have hltk : s.offset + (totalRows (envs.take k) : Int) < p.row_count := by
      have := totalRows_take_le envs k
      have h0 : (totalRows (envs.take k) : Int) ≤ (totalRows envs : Int) := by
        exact_mod_cast this
      omega
    obtain ⟨s', acts, hrun, hb, _⟩ := runLoop_good p (envs.take k) s hgk hltk
    have hlenk : (envs.take k).length = k := by
      rw [List.length_take, hlen]
      omega
    rw [hlenk, hbs, hinc, hblk,
        boostIter_fresh p.calculated_batch_size k 0 le_rfl (by omega)] at hb
    exact ⟨s', acts, hrun, congrArg Prod.fst hb⟩
  · obtain ⟨s', acts, hrun, hb, _⟩ := runLoop_good p envs s hg hlt
    rw [hlen, hbs, hinc, hblk, boostIter_ten] at hb
    refine ⟨s', acts, hrun, ?_, ?_, ?_⟩
    · exact congrArg Prod.fst hb
    · exact congrArg (fun t => t.2.1) hb
    · exact congrArg (fun t => t.2.2) hb

/-- C1 witness: ten one-row batches at 1 second each, baseline 2048, fresh
counters — the run consumes all ten oracles and the final batch size is
`min(2048 + 2048, 2048*6)`. -/
theorem C1_boost_witness :
    ∃ s' acts, runLoop
      { pk := "`id`", pk_active := false, pk_index := 0, row_count := 1000,
        calculated_batch_size := 2048, db_name := "appdb", table_name := "t",
        columns := [("id", FieldType.LONG)] }
      (List.replicate 10
        { fetch := .ok [[PyObj.intv 1]], insert := Option.none,
          single := fun _ => Option.none, reconnect := Option.none,
          elapsed := 1 })
      { batch_size := 2048, increment_batch := 0, increment_batch_blocks := 0,
        offset := 0, first_pk := 0, lastRows := Option.none,
        progress_created := false } = (.fuelOut s', acts) ∧
      s'.batch_size = min (2048 + 2048) (2048 * 6) ∧
      s'.increment_batch = 0 ∧ s'.increment_batch_blocks = 1 :=
  (C1_boost
    { pk := "`id`", pk_active := false, pk_index := 0, row_count := 1000,
      calculated_batch_size := 2048, db_name := "appdb", table_name := "t",
      columns := [("id", FieldType.LONG)] }
    { batch_size := 2048, increment_batch := 0, increment_batch_blocks := 0,
      offset := 0, first_pk := 0, lastRows := Option.none,
      progress_created := false }
    (List.replicate 10
      { fetch := .ok [[PyObj.intv 1]], insert := Option.none,
        single := fun _ => Option.none, reconnect := Option.none,
        elapsed := 1 })
    rfl rfl rfl (by decide)
    (fun e he => by
      rw [List.eq_of_mem_replicate he]
      exact ⟨rfl, by decide, rfl, by decide, fun hh => absurd hh (by decide)⟩)
    (by decide)).2.2.2

/-- C3 counterexample: a connection-lost (errno 2013) raised by the *insert*
step under PK pagination.  Concrete input: cursor at 5, fetched batch whose
last row has PK 7, insert raises 2013, reconnect succeeds.  The loop retries
(`next`), but the PK cursor has already advanced to 8 ≠ 5 — contradicting the
claim that the same batch is retried "without advancing ... the primary-key
cursor"; and the reconnect performed at this call re-selects no database on
the destination side even though one (`appdb`) was active, contradicting
"re-selecting the previously active database on each side". -/
theorem C3_counterexample :
    (migrateStep
      { pk := "`id`", pk_active := true, pk_index := 0, row_count := 1000,
        calculated_batch_size := 2048, db_name := "appdb", table_name := "t",
        columns := [("id", FieldType.LONG)] }
      { batch_size := 64, increment_batch := 3, increment_batch_blocks := 0,
        offset := 100, first_pk := 5, lastRows := Option.none,
        progress_created := true }
      { fetch := .ok [[PyObj.intv 7]], insert := some (.mysql 2013),
        single := fun _ => Option.none, reconnect := Option.none,
        elapsed := 0 }).out.stateOf.first_pk = 8 ∧
    (8 : Int) ≠ 5 ∧
    (migrateStep
      { pk := "`id`", pk_active := true, pk_index := 0, row_count := 1000,
        calculated_batch_size := 2048, db_name := "appdb", table_name := "t",
        columns := [("id", FieldType.LONG)] }
      { batch_size := 64, increment_batch := 3, increment_batch_blocks := 0,
        offset := 100, first_pk := 5, lastRows := Option.none,
        progress_created := true }
      { fetch := .ok [[PyObj.intv 7]], insert := some (.mysql 2013),
        single := fun _ => Option.none, reconnect := Option.none,
        elapsed := 0 }).out.isFail = false ∧
    RAction.useDb .dst "appdb" ∉ reconnect_to_db_actions (some "appdb") Option.none := by
  refine ⟨by decide, by decide, by decide, by decide⟩

/-- C3 (amended): on errno 2013 the pair is reconnected exactly as
`reconnect_to_db(src_conn, dst_conn, src_cur, dst_cur, db_name)` does — both
connections with 3 attempts and 5-second delay, destination manual-commit
restored, session configuration reapplied to both cursors, and only the
*source*-side database re-selected (the call passes no destination database)
— the batch size becomes `max(1, batchSize // 8)` and the loop continues
without advancing the offset; the PK cursor is unchanged when the error arose
during the fetch, but when it arose during the insert the cursor has already
advanced to (last fetched row's PK + 1), so the lost batch is not re-fetched
under PK pagination; a reconnect failure returns `(False, e)`, and a 2013 on
the very first fetch (before the progress bar exists) also returns
`(False, NameError)` instead of retrying. -/
theorem C3_connection_lost (p : TableParams) (s : LoopState) (e : IterEnv) :
    (∀ d, reconnect_to_db_actions (some d) Option.none =
        [RAction.reconnectConn .src 3 5, RAction.reconnectConn .dst 3 5,
         RAction.autocommitOff, RAction.configureSession .src,
         RAction.configureSession .dst, RAction.useDb .src d] ∧
      RAction.useDb .dst d ∉ reconnect_to_db_actions (some d) Option.none) ∧
    (e.fetch = .error (.mysql 2013) → e.reconnect = Option.none →
      s.progress_created = true →
      migrateStep p s e =
        ⟨.next { s with batch_size := max 1 (Int.fdiv s.batch_size 8) },
         [Action.fetch (fetchQueryOf p s),
          Action.reconnectSeq (reconnect_to_db_actions (some p.db_name) Option.none)]⟩) ∧
    (∀ rows v, e.fetch = .ok rows → rows ≠ [] → p.pk_active = true →
      (rows.getLastD []).getD p.pk_index PyObj.none = PyObj.intv v →
      e.insert = some (.mysql 2013) → e.reconnect = Option.none →
      migrateStep p s e =
        ⟨.next { s with progress_created := true, lastRows := some rows, first_pk := v + 1, batch_size := max 1 (Int.fdiv s.batch_size 8) },
         [Action.fetch (fetchQueryOf p s),
          Action.insertBatch (rows.map (escapeRow p.columns)),
          Action.reconnectSeq (reconnect_to_db_actions (some p.db_name) Option.none)]⟩) ∧
    (∀ er2, e.fetch = .error (.mysql 2013) → e.reconnect = some er2 →
      (migrateStep p s e).out = .fail er2 s) ∧
    (e.fetch = .error (.mysql 2013) → e.reconnect = Option.none →
      s.progress_created = false →
      (migrateStep p s e).out =
        .fail (.other "NameError")
          { s with batch_size := max 1 (Int.fdiv s.batch_size 8) }) := by
  refine ⟨?_, ?_, ?_, ?_, ?_⟩
  · intro d
    exact ⟨rfl, by simp [reconnect_to_db_actions]⟩
  · intro hf hr hpc
    simp [migrateStep, handle_loop_error, hf, hr, hpc]
  · intro rows v hf hne hpa hcell hins hr
    have hne' : rows.isEmpty = false := by
      cases rows with
      | nil => exact absurd rfl hne
      | cons a l => rfl
    simp only [List.getD_eq_getElem?_getD, List.getLastD_eq_getLast?] at hcell
    simp [migrateStep, handle_loop_error, hf, hne', hpa, hcell, hins, hr]
  · intro er2 hf hr
    simp [migrateStep, handle_loop_error, hf, hr]
  · intro hf hr hpc
    simp [migrateStep, handle_loop_error, hf, hr, hpc]

/-- C3 witness: a 2013 during the fetch with the progress bar live — the loop
continues with the batch size shrunk from 64 to `max(1, 64 // 8)` and the
reconnect `USE`s only the source database. -/
theorem C3_connection_lost_witness :
    migrateStep
      { pk := "`id`", pk_active := true, pk_index := 0, row_count := 1000,
        calculated_batch_size := 2048, db_name := "appdb", table_name := "t",
        columns := [("id", FieldType.LONG)] }
      { batch_size := 64, increment_batch := 3, increment_batch_blocks := 0,
        offset := 100, first_pk := 5, lastRows := Option.none,
        progress_created := true }
      { fetch := .error (.mysql 2013), insert := Option.none,
        single := fun _ => Option.none, reconnect := Option.none,
        elapsed := 0 } =
      ⟨.next { batch_size := max 1 (Int.fdiv 64 8), increment_batch := 3,
               increment_batch_blocks := 0, offset := 100, first_pk := 5,
               lastRows := Option.none, progress_created := true },
       [Action.fetch (FetchQuery.byPkRange "`id`" 5 64),
        Action.reconnectSeq (reconnect_to_db_actions (some "appdb") Option.none)]⟩ :=
  (C3_connection_lost
    { pk := "`id`", pk_active := true, pk_index := 0, row_count := 1000,
      calculated_batch_size := 2048, db_name := "appdb", table_name := "t",
      columns := [("id", FieldType.LONG)] }
    { batch_size := 64, increment_batch := 3, increment_batch_blocks := 0,
      offset := 100, first_pk := 5, lastRows := Option.none,
      progress_created := true }
    { fetch := .error (.mysql 2013), insert := Option.none,
      single := fun _ => Option.none, reconnect := Option.none,
      elapsed := 0 }).2.1 rfl rfl rfl

/-- Characterization of `on_error_insert_single`: the attempted statements
are the codec-escaped prefix of the batch; nothing is raised exactly when
every row's insert either succeeds or raises the swallowed duplicate-key
error; a raised error is a non-1062 error of one of the rows. -/
theorem on_error_insert_single_spec (columns : List Col)
    (single : Nat → Option PyErr) :
    ∀ (batch : List Row) (i : Nat),
    ((on_error_insert_single columns single batch i).1.map Prod.fst =
      (batch.take (on_error_insert_single columns single batch i).1.length).map
        (escapeRow columns)) ∧
    ((on_error_insert_single columns single batch i).2 = Option.none →
      (on_error_insert_single columns single batch i).1.length = batch.length) ∧
    ((∀ j, j < batch.length → single (i + j) = Option.none ∨
        single (i + j) = some (.mysql 1062)) →
      (on_error_insert_single columns single batch i).2 = Option.none) ∧
    (∀ er, (on_error_insert_single columns single batch i).2 = some er →
      er ≠ .mysql 1062 ∧ ∃ k, k < batch.length ∧ single (i + k) = some er) := by
  intro batch
  induction batch with
  | nil =>
      intro i
      refine ⟨rfl, fun _ => rfl, fun _ => rfl, fun er h => ?_⟩
      simp [on_error_insert_single] at h
  | cons r rs ih =>
      intro i
      obtain ⟨ih1, ih2, ih3, ih4⟩ := ih (i + 1)
      cases hs : single i with
      | none =>
          refine ⟨?_, ?_, ?_, ?_⟩
          · simp [on_error_insert_single, hs, List.take_succ_cons, ih1]
          · intro h
            simp only [on_error_insert_single, hs] at h ⊢
            simp [ih2 h]
          · intro h
            have hrec := ih3 (fun j hj => by
              rw [show i + 1 + j = i + (j + 1) by omega]
              exact h (j + 1) (by simpa using Nat.succ_lt_succ hj))
            simp [on_error_insert_single, hs, hrec]
          · intro er h
            simp only [on_error_insert_single, hs] at h
            obtain ⟨hner, k, hk, hsk⟩ := ih4 er h
            refine ⟨hner, k + 1, by simp only [List.length_cons]; omega, ?_⟩
            rw [show i + (k + 1) = i + 1 + k by omega]
            exact hsk
      | some er0 =>
          by_cases h62 : er0 = .mysql 1062
          · subst h62
            refine ⟨?_, ?_, ?_, ?_⟩
            · simp [on_error_insert_single, hs, List.take_succ_cons, ih1]
            · intro h
              simp only [on_error_insert_single, hs, if_pos rfl] at h ⊢
              simp [ih2 h]
            · intro h
              have hrec := ih3 (fun j hj => by
                rw [show i + 1 + j = i + (j + 1) by omega]
                exact h (j + 1) (by simpa using Nat.succ_lt_succ hj))
              simp [on_error_insert_single, hs, hrec]
            · intro er h
              simp only [on_error_insert_single, hs, if_pos rfl] at h
              obtain ⟨hner, k, hk, hsk⟩ := ih4 er h
              refine ⟨hner, k + 1, by simp only [List.length_cons]; omega, ?_⟩
              rw [show i + (k + 1) = i + 1 + k by omega]
              exact hsk
          · refine ⟨?_, ?_, ?_, ?_⟩
            · simp [on_error_insert_single, hs, h62]
            · intro h
              simp [on_error_insert_single, hs, h62] at h
            · intro h
              have h0 := h 0 (by simp only [List.length_cons]; omega)
              rw [Nat.add_zero, hs] at h0
              rcases h0 with h0 | h0
              · exact absurd h0 (by simp)
              · exact absurd (Option.some.inj h0) h62
            · intro er h
              simp only [on_error_insert_single, hs, h62, if_neg h62] at h
              obtain rfl : er0 = er := Option.some.inj h
              exact ⟨h62, 0, by simp only [List.length_cons]; omega,
                by rw [Nat.add_zero]; exact hs⟩

/-- A batch insert failing with errno 1062/1064 runs the single-row fallback
on the just-fetched rows; on a clean fallback the iteration proceeds to the
post-batch code with the full batch length, on a re-raised error it becomes
`return False, e`. -/
theorem migrateStep_dup_err (p : TableParams) (s : LoopState) (e : IterEnv)
    (rows : List Row) (er : PyErr)
    (hf : e.fetch = .ok rows) (hne : rows ≠ [])
    (hpk : p.pk_active = true →
      ∃ v, (rows.getLastD []).getD p.pk_index PyObj.none = PyObj.intv v)
    (hins : e.insert = some er)
    (h10 : er = .mysql 1062 ∨ er = .mysql 1064) :
    ∃ s2 : LoopState,
      s2.batch_size = s.batch_size ∧ s2.increment_batch = s.increment_batch ∧
      s2.increment_batch_blocks = s.increment_batch_blocks ∧
      s2.offset = s.offset ∧ s2.lastRows = some rows ∧
      s2.progress_created = true ∧
      ((on_error_insert_single p.columns e.single rows 0).2 = Option.none →
        migrateStep p s e =
          after_batch p s2 rows.length e
            ([Action.fetch (fetchQueryOf p s),
              Action.insertBatch (rows.map (escapeRow p.columns))] ++
              (on_error_insert_single p.columns e.single rows 0).1.map
                (fun a => Action.insertSingle a.1 a.2))) ∧
      (∀ er2, (on_error_insert_single p.columns e.single rows 0).2 = some er2 →
        migrateStep p s e =
          ⟨.fail er2 s2,
           [Action.fetch (fetchQueryOf p s),
            Action.insertBatch (rows.map (escapeRow p.columns))] ++
             (on_error_insert_single p.columns e.single rows 0).1.map
               (fun a => Action.insertSingle a.1 a.2)⟩) := by
  have hne' : rows.isEmpty = false := by
    cases rows with
    | nil => exact absurd rfl hne
    | cons a l => rfl
  cases hpa : p.pk_active with
  | true =>
      obtain ⟨v, hv⟩ := hpk hpa
      simp only [List.getD_eq_getElem?_getD, List.getLastD_eq_getLast?] at hv
      refine ⟨{ s with progress_created := true, lastRows := some rows, first_pk := v + 1 }, rfl, rfl, rfl, rfl, rfl, rfl, ?_, ?_⟩
      · intro hq
        rcases h10 with h | h <;> subst h <;>
          simp [migrateStep, handle_loop_error, hf, hne', hpa, hv, hins, hq]
      · intro er2 hq
        rcases h10 with h | h <;> subst h <;>
          simp [migrateStep, handle_loop_error, hf, hne', hpa, hv, hins, hq]
  | false =>
      refine ⟨{ s with progress_created := true, lastRows := some rows },
        rfl, rfl, rfl, rfl, rfl, rfl, ?_, ?_⟩
      · intro hq
        rcases h10 with h | h <;> subst h <;>
          simp [migrateStep, handle_loop_error, hf, hne', hpa, hins, hq]
      · intro er2 hq
        rcases h10 with h | h <;> subst h <;>
          simp [migrateStep, handle_loop_error, hf, hne', hpa, hins, hq]

/-- C5: a batch insert failing with duplicate-key (1062) or SQL-syntax (1064)
error falls back to row-at-a-time inserts of the same escaped statements (the
same codec and insert shape as the bulk path); per-row duplicate-key errors
are skipped and the walk continues, so the iteration completes and the offset
advances by the whole batch; any other per-row error re-raises, the walk
stops at that row, and `migrate_table_data` returns `(False, that error)`. -/
theorem C5_single_row_fallback (p : TableParams) (s : LoopState) (e : IterEnv)
    (rows : List Row)
    (hf : e.fetch = .ok rows) (hne : rows ≠ [])
    (hpk : p.pk_active = true →
      ∃ v, (rows.getLastD []).getD p.pk_index PyObj.none = PyObj.intv v)
    (hins : e.insert = some (.mysql 1062) ∨ e.insert = some (.mysql 1064)) :
    ((on_error_insert_single p.columns e.single rows 0).1.map Prod.fst =
      (rows.take (on_error_insert_single p.columns e.single rows 0).1.length).map
        (escapeRow p.columns)) ∧
    ((on_error_insert_single p.columns e.single rows 0).2 = Option.none →
      (on_error_insert_single p.columns e.single rows 0).1.length = rows.length ∧
      (migrateStep p s e).out.isFail = false ∧
      (migrateStep p s e).out.stateOf.offset = s.offset + rows.length) ∧
    ((∀ j, j < rows.length → e.single j = Option.none ∨
        e.single j = some (.mysql 1062)) →
      (on_error_insert_single p.columns e.single rows 0).2 = Option.none) ∧
    (∀ er, (on_error_insert_single p.columns e.single rows 0).2 = some er →
      er ≠ .mysql 1062 ∧ (∃ k, k < rows.length ∧ e.single k = some er) ∧
      (∃ s2, (migrateStep p s e).out = .fail er s2) ∧
      (∀ rest, s.offset < p.row_count →
        ∃ s3, (runLoop p (e :: rest) s).1 = .finished false (some er) (some s3))) := by
  obtain ⟨er, hinsr, h10⟩ :
      ∃ er, e.insert = some er ∧ (er = .mysql 1062 ∨ er = .mysql 1064) := by
    rcases hins with h | h
    · exact ⟨_, h, Or.inl rfl⟩
    · exact ⟨_, h, Or.inr rfl⟩
  obtain ⟨sp1, sp2, sp3, sp4⟩ := on_error_insert_single_spec p.columns e.single rows 0
  obtain ⟨s2, hb, hi2, hbl, ho, hlr, hpc, hok, hfail⟩ :=
    migrateStep_dup_err p s e rows er hf hne hpk hinsr h10
  refine ⟨sp1, ?_, ?_, ?_⟩
  · intro hq
    refine ⟨sp2 hq, ?_, ?_⟩
    · rw [hok hq]
      exact after_batch_not_fail p s2 rows.length e _
    · rw [hok hq, after_batch_stateOf]
      simpa using ho
  · intro h
    exact sp3 (fun j hj => by rw [Nat.zero_add]; exact h j hj)
  · intro er2 hq
    obtain ⟨hner, k, hk, hsk⟩ := sp4 er2 hq
    rw [Nat.zero_add] at hsk
    refine ⟨hner, ⟨k, hk, hsk⟩, ⟨s2, ?_⟩, ?_⟩
    · rw [hfail er2 hq]
    · intro rest hlt
      refine ⟨s2, ?_⟩
      rw [runLoop, if_pos hlt]
      simp only [hfail er2 hq]

/-- C5 witness: a three-row batch whose bulk insert hits a duplicate key; the
second row's individual insert raises 1062 and is skipped, the other two
succeed — all three rows are attempted and the iteration advances the offset
by 3 without failing. -/
theorem C5_single_row_fallback_witness :
    ((on_error_insert_single
        [("id", FieldType.LONG)]
        (fun j => if j = 1 then some (.mysql 1062) else Option.none)
        [[PyObj.intv 1], [PyObj.intv 2], [PyObj.intv 3]] 0).1.length = 3 ∧
      (migrateStep
        { pk := "`id`", pk_active := false, pk_index := 0, row_count := 1000,
          calculated_batch_size := 2048, db_name := "appdb", table_name := "t",
          columns := [("id", FieldType.LONG)] }
        { batch_size := 64, increment_batch := 0, increment_batch_blocks := 0,
          offset := 0, first_pk := 0, lastRows := Option.none,
          progress_created := false }
        { fetch := .ok [[PyObj.intv 1], [PyObj.intv 2], [PyObj.intv 3]],
          insert := some (.mysql 1062),
          single := fun j => if j = 1 then some (.mysql 1062) else Option.none,
          reconnect := Option.none, elapsed := 1 }).out.isFail = false ∧
      (migrateStep
        { pk := "`id`", pk_active := false, pk_index := 0, row_count := 1000,
          calculated_batch_size := 2048, db_name := "appdb", table_name := "t",
          columns := [("id", FieldType.LONG)] }
        { batch_size := 64, increment_batch := 0, increment_batch_blocks := 0,
          offset := 0, first_pk := 0, lastRows := Option.none,
          progress_created := false }
        { fetch := .ok [[PyObj.intv 1], [PyObj.intv 2], [PyObj.intv 3]],
          insert := some (.mysql 1062),
          single := fun j => if j = 1 then some (.mysql 1062) else Option.none,
          reconnect := Option.none, elapsed := 1 }).out.stateOf.offset = 3) :=
  (C5_single_row_fallback
    { pk := "`id`", pk_active := false, pk_index := 0, row_count := 1000,
      calculated_batch_size := 2048, db_name := "appdb", table_name := "t",
      columns := [("id", FieldType.LONG)] }
    { batch_size := 64, increment_batch := 0, increment_batch_blocks := 0,
      offset := 0, first_pk := 0, lastRows := Option.none,
      progress_created := false }
    { fetch := .ok [[PyObj.intv 1], [PyObj.intv 2], [PyObj.intv 3]],
      insert := some (.mysql 1062),
      single := fun j => if j = 1 then some (.mysql 1062) else Option.none,
      reconnect := Option.none, elapsed := 1 }
    [[PyObj.intv 1], [PyObj.intv 2], [PyObj.intv 3]]
    rfl (by decide) (fun hh => absurd hh (by decide)) (Or.inl rfl)).2.1 rfl

/-- The only exception the main loop lets escape is the NameError of the
final `close_pbar(progress)` on a never-bound progress handle. -/
theorem runLoop_thrown (p : TableParams) :
    ∀ (envs : List IterEnv) (s : LoopState) (er : PyErr),
    (runLoop p envs s).1 = .thrown er → er = .other "NameError" := by
  intro envs
  induction envs with
  | nil =>
      intro s er h
      rw [runLoop] at h
      by_cases h1 : s.offset < p.row_count
      · simp [h1] at h
      · rw [if_neg h1] at h
        by_cases h2 : s.progress_created = true
        · simp [h2] at h
        · simp only [h2, Bool.false_eq_true, if_false] at h
          exact (MigrateResult.thrown.inj h).symm
  | cons e rest ih =>
      intro s er h
      rw [runLoop] at h
      by_cases h1 : s.offset < p.row_count
      · rw [if_pos h1] at h
        rcases hstep : migrateStep p s e with ⟨out, acts⟩
        rw [hstep] at h
        rcases out with s2 | s2 | ⟨er2, s2⟩
        · exact ih _ _ (by simpa using h)
        · cases h2 : s2.progress_created with
          | true => simp [h2] at h
          | false => simp [h2] at h; exact h.symm
        · simp at h
      · rw [if_neg h1] at h
        by_cases h2 : s.progress_created = true
        · simp [h2] at h
        · simp only [h2, Bool.false_eq_true, if_false] at h
          exact (MigrateResult.thrown.inj h).symm

/-- Whenever the loop returns a `(success, error)` pair it is `(True, None)`
or `(False, some error)`. -/
theorem runLoop_finished (p : TableParams) :
    ∀ (envs : List IterEnv) (s : LoopState) (ok : Bool) (err : Option PyErr)
      (fin : Option LoopState),
    (runLoop p envs s).1 = .finished ok err fin →
    (ok = true ∧ err = Option.none) ∨ (ok = false ∧ ∃ er, err = some er) := by
  intro envs
  induction envs with
  | nil =>
      intro s ok err fin h
      rw [runLoop] at h
      by_cases h1 : s.offset < p.row_count
      · simp [h1] at h
      · rw [if_neg h1] at h
        by_cases h2 : s.progress_created = true
        · simp only [h2, if_true] at h
          obtain ⟨hok, herr, _⟩ := MigrateResult.finished.inj h
          exact Or.inl ⟨hok.symm, herr.symm⟩
        · simp [h2] at h
  | cons e rest ih =>
      intro s ok err fin h
      rw [runLoop] at h
      by_cases h1 : s.offset < p.row_count
      · rw [if_pos h1] at h
        rcases hstep : migrateStep p s e with ⟨out, acts⟩
        rw [hstep] at h
        rcases out with s2 | s2 | ⟨er2, s2⟩
        · exact ih _ _ _ _ (by simpa using h)
        · cases h2 : s2.progress_created with
          | true =>
              simp [h2] at h
              exact Or.inl ⟨h.1, h.2.1.symm⟩
          | false => simp [h2] at h
        · simp at h
          exact Or.inr ⟨h.1, er2, h.2.1.symm⟩
      · rw [if_neg h1] at h
        by_cases h2 : s.progress_created = true
        · simp only [h2, if_true] at h
          obtain ⟨hok, herr, _⟩ := MigrateResult.finished.inj h
          exact Or.inl ⟨hok.symm, herr.symm⟩
        · simp [h2] at h

/-- C7 counterexample: the setup phase of `migrate_table_data`
(db.py:410-485) runs outside any try/except, so an error raised there — here
errno 1146, "table doesn't exist", on one of the setup queries — propagates
out of the function instead of being returned as a `(False, e)` pair,
contradicting "never propagates an exception past its own boundary". -/
theorem C7_counterexample :
    (migrate_table_data
      { pkCols := ["id"], columns := [("id", FieldType.LONG)],
        row_count := 5, first_pk0 := 1 }
      (some (.mysql 1146)) [] 2048 "appdb" "t").1 = .thrown (.mysql 1146) := rfl

/-- C7 (amended): whenever `migrate_table_data` returns, it returns
`(True, None)` on success and `(False, e)` on failure; with a zero computed
row count it returns `(True, None)` immediately, performing no fetch and no
insert.  Exceptions do escape the function, but only from the unprotected
setup phase (modelled by `setupFail`) or as the NameError of the final
progress-bar close, reachable only when a positive row count meets an
immediately-empty first fetch; the main loop otherwise converts every failure
into a returned pair. -/
theorem C7_boundary (info : TableInfo) (setupFail : Option PyErr)
    (envs : List IterEnv) (obs : Int) (dbn tn : String) :
    (setupFail = Option.none → info.row_count = 0 →
      migrate_table_data info setupFail envs obs dbn tn =
        (.finished true Option.none Option.none, [])) ∧
    (∀ er, (migrate_table_data info setupFail envs obs dbn tn).1 = .thrown er →
      setupFail = some er ∨ er = .other "NameError") ∧
    (∀ ok err fin,
      (migrate_table_data info setupFail envs obs dbn tn).1 = .finished ok err fin →
      (ok = true ∧ err = Option.none) ∨ (ok = false ∧ ∃ er2, err = some er2)) := by
  refine ⟨?_, ?_, ?_⟩
  · intro h0 hrc
    simp [migrate_table_data, h0, hrc]
  · intro er h
    cases setupFail with
    | some e0 =>
        simp only [migrate_table_data] at h
        exact Or.inl (by rw [MigrateResult.thrown.inj h])
    | none =>
        by_cases hrc : info.row_count = 0
        · simp [migrate_table_data, hrc] at h
        · simp only [migrate_table_data, hrc, if_false] at h
          exact Or.inr (runLoop_thrown _ _ _ _ h)
  · intro ok err fin h
    cases setupFail with
    | some e0 => simp [migrate_table_data] at h
    | none =>
        by_cases hrc : info.row_count = 0
        · simp only [migrate_table_data, hrc, if_true] at h
          obtain ⟨hok, herr, _⟩ := MigrateResult.finished.inj h
          exact Or.inl ⟨hok.symm, herr.symm⟩
        · simp only [migrate_table_data, hrc, if_false] at h
          exact runLoop_finished _ _ _ _ _ _ h

/-- C7 witness: an empty table (row count 0) with a clean setup succeeds
immediately with `(True, None)` and an empty action trace — no fetch, no
insert. -/
theorem C7_boundary_witness :
    migrate_table_data
      { pkCols := ["id"], columns := [("id", FieldType.LONG)],
        row_count := 0, first_pk0 := 0 }
      Option.none [] 2048 "appdb" "t" =
      (.finished true Option.none Option.none, []) :=
  (C7_boundary
    { pkCols := ["id"], columns := [("id", FieldType.LONG)],
      row_count := 0, first_pk0 := 0 }
    Option.none [] 2048 "appdb" "t").1 rfl rfl

/-- The fleet fold: the overall flag is the conjunction of the per-database
outcomes and the trace is the concatenation of the per-database traces —
every database is processed regardless of sibling failures. -/
theorem run_migration_threads_foldl (envs : String → DbEnv) :
    ∀ (dbs : List String) (acc : Bool × List FleetAction),
    dbs.foldl
      (fun acc db =>
        let r := migrate_database db (envs db)
        (acc.1 && r.1, acc.2 ++ r.2)) acc
      = (acc.1 && dbs.all (fun db => (migrate_database db (envs db)).1),
         acc.2 ++ (dbs.map (fun db => (migrate_database db (envs db)).2)).flatten) := by
  intro dbs
  induction dbs with
  | nil => intro acc; simp
  | cons d rest ih =>
      intro acc
      simp [List.foldl_cons, ih, Bool.and_assoc, List.append_assoc]

/-- C8 counterexample: a database whose schema and every table migrate
cleanly but whose procedure migration fails — a per-database fatal condition
by the claim, and indeed the database is recorded in the Failure Ledger and
dropped — yet the fleet-level success flag stays `true`, because
`migrate_procedures` returns False instead of raising and `migrate_database`
(db.py:302) ignores that return value. -/
theorem C8_counterexample :
    (run_migration_threads ["d"]
      (fun _ => ⟨true, [(true, true)], false⟩)).1 = true ∧
    FleetAction.addFailed "d" ∈
      (run_migration_threads ["d"] (fun _ => ⟨true, [(true, true)], false⟩)).2 ∧
    FleetAction.dropDatabase "d" ∈
      (run_migration_threads ["d"] (fun _ => ⟨true, [(true, true)], false⟩)).2 := by
  exact ⟨rfl, by decide, by decide⟩

/-- C8 (amended): a schema-creation failure records the database in the
Failure Ledger, drops the partially-created destination database and
propagates (overall flag false); a table-transfer failure or row-count
mismatch additionally rolls back the destination transaction before ledger,
drop and propagation; a procedure-migration failure records the database and
drops it but does **not** propagate — the table-load transaction has already
committed and `migrate_database` ignores `migrate_procedures`' False return,
so the overall flag stays true; the fleet processes every database and its
flag is the conjunction of the per-database outcomes (siblings continue). -/
theorem C8_per_database_fatality :
    (∀ (db : String) (env : DbEnv), env.schemaOk = false →
      (migrate_database db env).1 = false ∧
      FleetAction.addFailed db ∈ (migrate_database db env).2 ∧
      FleetAction.dropDatabase db ∈ (migrate_database db env).2) ∧
    (∀ (db : String) (env : DbEnv), env.schemaOk = true →
      env.tableResults.all (fun t => t.1 && t.2) = false →
      (migrate_database db env).1 = false ∧
      FleetAction.rollback db ∈ (migrate_database db env).2 ∧
      FleetAction.addFailed db ∈ (migrate_database db env).2 ∧
      FleetAction.dropDatabase db ∈ (migrate_database db env).2) ∧
    (∀ (db : String) (env : DbEnv), env.schemaOk = true →
      env.tableResults.all (fun t => t.1 && t.2) = true →
      env.proceduresOk = false →
      (migrate_database db env).1 = true ∧
      FleetAction.addFailed db ∈ (migrate_database db env).2 ∧
      FleetAction.dropDatabase db ∈ (migrate_database db env).2 ∧
      FleetAction.commit db ∈ (migrate_database db env).2) ∧
    (∀ (dbs : List String) (envs : String → DbEnv),
      (run_migration_threads dbs envs).1 =
        dbs.all (fun db => (migrate_database db (envs db)).1) ∧
      (run_migration_threads dbs envs).2 =
        (dbs.map (fun db => (migrate_database db (envs db)).2)).flatten) := by
  refine ⟨?_, ?_, ?_, ?_⟩
  · intro db env h
    simp [migrate_database, migrate_schema, h]
  · intro db env h1 h2
    simp [migrate_database, migrate_schema, migrate_database_tables, h1, h2]
  · intro db env h1 h2 h3
    simp [migrate_database, migrate_schema, migrate_database_tables,
      migrate_procedures, h1, h2, h3]
  · intro dbs envs
    constructor
    · simp [run_migration_threads, run_migration_threads_foldl]
    · simp [run_migration_threads, run_migration_threads_foldl]

/-- C8 witness: the procedure-failure case at a concrete database — flag
stays true while the ledger records the database, the destination database is
dropped and the data transaction had committed. -/
theorem C8_per_database_fatality_witness :
    (migrate_database "d" ⟨true, [(true, true)], false⟩).1 = true ∧
    FleetAction.addFailed "d" ∈ (migrate_database "d" ⟨true, [(true, true)], false⟩).2 ∧
    FleetAction.dropDatabase "d" ∈ (migrate_database "d" ⟨true, [(true, true)], false⟩).2 ∧
    FleetAction.commit "d" ∈ (migrate_database "d" ⟨true, [(true, true)], false⟩).2 :=
  C8_per_database_fatality.2.2.1 "d" ⟨true, [(true, true)], false⟩ rfl rfl rfl

/-- When the post-batch code continues the loop, the new state is the old one
with the offset advanced by the batch length (bookkeeping fields aside). -/
theorem after_batch_out_next (p : TableParams) (s : LoopState) (n : Nat)
    (e : IterEnv) (acts : List Action) :
    ∀ s', (after_batch p s n e acts).out = .next s' →
      s'.offset = s.offset + n ∧ s'.lastRows = s.lastRows ∧
      s'.progress_created = s.progress_created := by
  intro s' h
  have hso := after_batch_stateOf p s n e acts
  rw [h] at hso
  simp only [StepOutcome.stateOf] at hso
  subst hso
  exact ⟨rfl, rfl, rfl⟩

/-- The post-batch code breaks exactly when the advanced offset has consumed
the row count, and continues otherwise. -/
theorem after_batch_kind (p : TableParams) (s : LoopState) (n : Nat)
    (e : IterEnv) (acts : List Action) :
    (p.row_count ≤ s.offset + (n : Int) →
      (after_batch p s n e acts).out =
        .brk ((after_batch p s n e acts).out.stateOf)) ∧
    (¬ p.row_count ≤ s.offset + (n : Int) →
      (after_batch p s n e acts).out =
        .next ((after_batch p s n e acts).out.stateOf)) := by
  constructor
  · intro h
    simp only [after_batch, ge_iff_le]
    simp [h, StepOutcome.stateOf]
  · intro h
    simp only [after_batch, ge_iff_le]
    simp [h, StepOutcome.stateOf]

/-- In the absence of a 2013 error, the except-handler continues the loop
only through a clean single-row fallback, which advances the offset by the
length of the bound batch. -/
theorem handle_loop_error_next (p : TableParams) (s : LoopState) (e : IterEnv)
    (er : PyErr) (preActs : List Action) (h13 : er ≠ .mysql 2013) :
    ∀ s', (handle_loop_error p s e er preActs).out = .next s' →
      ∃ rs, s.lastRows = some rs ∧ s'.offset = s.offset + rs.length ∧
        s'.lastRows = s.lastRows := by
  intro s' h
  cases er with
  | other t => simp [handle_loop_error] at h
  | mysql n =>
      by_cases h64 : n = 1062 ∨ n = 1064
      · cases hlr : s.lastRows with
        | none =>
            rcases h64 with hn | hn <;> subst hn <;>
              simp [handle_loop_error, hlr] at h
        | some rs =>
            cases hq : (on_error_insert_single p.columns e.single rs 0).2 with
            | some er2 =>
                rcases h64 with hn | hn <;> subst hn <;>
                  simp [handle_loop_error, hlr, hq] at h
            | none =>
                have hab : handle_loop_error p s e (.mysql n) preActs =
                    after_batch p s rs.length e
                      (preActs ++
                        (on_error_insert_single p.columns e.single rs 0).1.map
                          (fun a => Action.insertSingle a.1 a.2)) := by
                  rcases h64 with hn | hn <;> subst hn <;>
                    simp [handle_loop_error, hlr, hq]
                rw [hab] at h
                obtain ⟨h1, h2, _⟩ := after_batch_out_next p s rs.length e _ s' h
                exact ⟨rs, rfl, h1, h2.trans hlr⟩
      · by_cases h20 : n = 2013
        · exact absurd (by rw [h20]) h13
        · simp [handle_loop_error, h64, h20] at h

/-- Per-iteration progress without connection-lost errors: a continuing
iteration strictly advances the offset (by the fetched row count when the
fetch succeeded, fallback included) and preserves the bound-batch
invariant. -/
theorem migrateStep_no2013_next (p : TableParams) (s : LoopState) (e : IterEnv)
    (h2013 : No2013 e) (hinv : s.lastRows ≠ some []) :
    ∀ s', (migrateStep p s e).out = .next s' →
      s.offset + 1 ≤ s'.offset ∧ s'.lastRows ≠ some [] ∧
      (∀ rows, e.fetch = .ok rows → s'.offset = s.offset + rows.length) := by
  obtain ⟨hf13, hi13⟩ := h2013
  intro s' hnext
  cases hfe : e.fetch with
  | error er =>
      have her : er ≠ .mysql 2013 := fun hh => hf13 (by rw [hfe, hh])
      have hm : migrateStep p s e = handle_loop_error p s e er
          [Action.fetch (fetchQueryOf p s)] := by
        simp [migrateStep, hfe]
      rw [hm] at hnext
      obtain ⟨rs, hlr, ho, hlr2⟩ := handle_loop_error_next p s e er _ her s' hnext
      have hrs : rs ≠ [] := fun hh => hinv (by rw [hlr, hh])
      have hlen : (1 : Int) ≤ rs.length := by
        have := List.length_pos.mpr hrs
        omega
      refine ⟨by omega, ?_, ?_⟩
      · rw [hlr2, hlr]
        intro hh
        exact hrs (Option.some.inj hh)
      · intro rows hr
        simp at hr
  | ok rows =>
      cases rows with
      | nil =>
          have hm : (migrateStep p s e).out = .brk s := by
            simp [migrateStep, hfe]
          rw [hm] at hnext
          cases hnext
      | cons r rl =>
          have hlen : (1 : Int) ≤ (r :: rl).length := by
            simp
          have hgoal3 : ∀ (t : LoopState),
              t.offset = s.offset + ((r :: rl).length : Int) →
              (∀ rows0 : List Row,
                (Except.ok (r :: rl) : Except PyErr (List Row)) = Except.ok rows0 →
                t.offset = s.offset + rows0.length) := by
            intro t ht rows0 hr
            obtain rfl := Except.ok.inj hr
            exact ht
          cases hpa : p.pk_active with
          | false =>
              cases hins : e.insert with
              | none =>
                  have hsucc := migrateStep_success_nopk p s e (r :: rl) hfe
                    (by simp) hpa hins
                  rw [hsucc] at hnext
                  obtain ⟨h1, h2, _⟩ :=
                    after_batch_out_next p _ (r :: rl).length e _ s' hnext
                  have h1' : s'.offset = s.offset + ((r :: rl).length : Int) := h1
                  have h2' : s'.lastRows = some (r :: rl) := h2
                  exact ⟨by omega,
                    (by rw [h2']; intro hh; cases Option.some.inj hh),
                    hgoal3 s' h1'⟩
              | some er =>
                  have her : er ≠ .mysql 2013 := fun hh => hi13 (by rw [hins, hh])
                  have hm : migrateStep p s e =
                      handle_loop_error p
                        { s with progress_created := true, lastRows := some (r :: rl) }
                        e er
                        [Action.fetch (fetchQueryOf p s),
                         Action.insertBatch ((r :: rl).map (escapeRow p.columns))] := by
                    simp [migrateStep, hfe, hpa, hins]
                  rw [hm] at hnext
                  obtain ⟨rs, hlr, ho, hlr2⟩ :=
                    handle_loop_error_next p _ e er _ her s' hnext
                  have hx : some (r :: rl) = some rs := hlr
                  obtain rfl : rs = r :: rl := (Option.some.inj hx).symm
                  have ho' : s'.offset = s.offset + ((r :: rl).length : Int) := ho
                  have hlr2' : s'.lastRows = some (r :: rl) := hlr2
                  exact ⟨by omega,
                    (by rw [hlr2']; intro hh; cases Option.some.inj hh),
                    hgoal3 s' ho'⟩
          | true =>
              by_cases hex : ∃ v, ((r :: rl).getLastD []).getD p.pk_index PyObj.none
                  = PyObj.intv v
              · obtain ⟨v, hv⟩ := hex
                cases hins : e.insert with
                | none =>
                    have hsucc := migrateStep_success_pk p s e (r :: rl) v hfe
                      (by simp) hpa hv hins
                    rw [hsucc] at hnext
                    obtain ⟨h1, h2, _⟩ :=
                      after_batch_out_next p _ (r :: rl).length e _ s' hnext
                    have h1' : s'.offset = s.offset + ((r :: rl).length : Int) := h1
                    have h2' : s'.lastRows = some (r :: rl) := h2
                    exact ⟨by omega,
                      (by rw [h2']; intro hh; cases Option.some.inj hh),
                      hgoal3 s' h1'⟩
                | some er =>
                    have her : er ≠ .mysql 2013 := fun hh => hi13 (by rw [hins, hh])
                    have hv' := hv
                    simp only [List.getD_eq_getElem?_getD,
                      List.getLastD_eq_getLast?] at hv'
                    have hm : migrateStep p s e =
                        handle_loop_error p
                          { s with progress_created := true,
                                   lastRows := some (r :: rl), first_pk := v + 1 }
                          e er
                          [Action.fetch (fetchQueryOf p s),
                           Action.insertBatch ((r :: rl).map (escapeRow p.columns))] := by
                      simp [migrateStep, hfe, hpa, hv', hins]
                    rw [hm] at hnext
                    obtain ⟨rs, hlr, ho, hlr2⟩ :=
                      handle_loop_error_next p _ e er _ her s' hnext
                    have hx : some (r :: rl) = some rs := hlr
                    obtain rfl : rs = r :: rl := (Option.some.inj hx).symm
                    have ho' : s'.offset = s.offset + ((r :: rl).length : Int) := ho
                    have hlr2' : s'.lastRows = some (r :: rl) := hlr2
                    exact ⟨by omega,
                      (by rw [hlr2']; intro hh; cases Option.some.inj hh),
                      hgoal3 s' ho'⟩
              · exfalso
                cases hc : ((r :: rl).getLastD []).getD p.pk_index PyObj.none <;>
                  first
                    | exact hex ⟨_, hc⟩
                    | (have hc' := hc
                       simp only [List.getD_eq_getElem?_getD,
                         List.getLastD_eq_getLast?] at hc'
                       simp [migrateStep, hfe, hpa, hc'] at hnext)

/-- Without connection-lost errors the loop cannot exhaust its oracles before
reaching an exit: each continuing iteration moves the offset at least one row
toward the row count. -/
theorem runLoop_no_fuelOut (p : TableParams) :
    ∀ (envs : List IterEnv) (s : LoopState),
    (∀ e ∈ envs, No2013 e) → s.lastRows ≠ some [] →
    (p.row_count - s.offset).toNat ≤ envs.length →
    (runLoop p envs s).1.isFuelOut = false := by
  intro envs
  induction envs with
  | nil =>
      intro s _ _ hfuel
      simp only [List.length_nil, Nat.le_zero] at hfuel
      have hge : p.row_count ≤ s.offset := by omega
      rw [runLoop, if_neg (not_lt.mpr hge)]
      split <;> rfl
  | cons e rest ih =>
      intro s hall hinv hfuel
      have hfuel' : (p.row_count - s.offset).toNat ≤ rest.length + 1 := by
        simpa using hfuel
      by_cases h1 : s.offset < p.row_count
      · rw [runLoop, if_pos h1]
        rcases hstep : migrateStep p s e with ⟨out, acts⟩
        rcases out with s2 | s2 | ⟨er2, s2⟩
        · have hout : (migrateStep p s e).out = .next s2 := by rw [hstep]
          obtain ⟨hoff, hinv2, _⟩ := migrateStep_no2013_next p s e
            (hall e (List.mem_cons_self e rest)) hinv s2 hout
          exact ih s2 (fun x hx => hall x (List.mem_cons_of_mem e hx)) hinv2
            (by omega)
        · cases hp : s2.progress_created <;>
            simp [hp, MigrateResult.isFuelOut]
        · rfl
      · rw [runLoop, if_neg h1]
        split <;> rfl

/-- A productive iteration continues with the offset advanced (still short of
the row count) or breaks having consumed it, with a live progress bar. -/
theorem migrateStep_productive (p : TableParams) (s : LoopState) (e : IterEnv)
    (hg : ProductiveEnv p e) :
    ∃ s', ((migrateStep p s e).out = .next s' ∧ s'.offset < p.row_count ∨
           (migrateStep p s e).out = .brk s' ∧ p.row_count ≤ s'.offset) ∧
      s'.offset = s.offset + (envRows e).length ∧ s'.progress_created = true := by
  obtain ⟨hfeq, hne, hins, hpk⟩ := hg
  have hsucc : ∃ srec : LoopState, srec.offset = s.offset ∧
      srec.progress_created = true ∧
      ∃ acts0, migrateStep p s e = after_batch p srec (envRows e).length e acts0 := by
    cases hpa : p.pk_active with
    | true =>
        obtain ⟨v, hv⟩ := hpk hpa
        refine ⟨_, ?_, ?_, _,
          migrateStep_success_pk p s e (envRows e) v hfeq hne hpa hv hins⟩ <;> rfl
    | false =>
        refine ⟨_, ?_, ?_, _,
          migrateStep_success_nopk p s e (envRows e) hfeq hne hpa hins⟩ <;> rfl
  obtain ⟨srec, hoff, hpc, acts0, hsucc⟩ := hsucc
  rw [hsucc]
  have hso := after_batch_stateOf p srec (envRows e).length e acts0
  have hRoff : (after_batch p srec (envRows e).length e acts0).out.stateOf.offset
      = s.offset + (envRows e).length := by
    rw [hso]
    simp [hoff]
  have hRpc : (after_batch p srec (envRows e).length e acts0).out.stateOf.progress_created
      = true := by
    rw [hso]
    simpa using hpc
  by_cases hend : p.row_count ≤ srec.offset + ((envRows e).length : Int)
  · refine ⟨_, Or.inr ⟨(after_batch_kind p srec _ e acts0).1 hend, ?_⟩, hRoff, hRpc⟩
    rw [hRoff, ← hoff]
    exact hend
  · refine ⟨_, Or.inl ⟨(after_batch_kind p srec _ e acts0).2 hend, ?_⟩, hRoff, hRpc⟩
    rw [hRoff, ← hoff]
    omega

/-- Draining a table with productive iterations and enough oracles ends in
`(True, None)` with the offset at or past the row count. -/
theorem runLoop_drain (p : TableParams) :
    ∀ (envs : List IterEnv) (s : LoopState),
    (∀ e ∈ envs, ProductiveEnv p e) →
    (p.row_count - s.offset).toNat ≤ envs.length →
    (s.offset < p.row_count ∨ s.progress_created = true) →
    ∃ s', (runLoop p envs s).1 = .finished true Option.none (some s') ∧
      p.row_count ≤ s'.offset := by
  intro envs
  induction envs with
  | nil =>
      intro s _ hfuel hstart
      simp only [List.length_nil, Nat.le_zero] at hfuel
      have hge : p.row_count ≤ s.offset := by omega
      have hpc : s.progress_created = true := by
        rcases hstart with h | h
        · exact absurd h (not_lt.mpr hge)
        · exact h
      refine ⟨s, ?_, hge⟩
      rw [runLoop, if_neg (not_lt.mpr hge)]
      simp [hpc]
  | cons e rest ih =>
      intro s hall hfuel hstart
      have hfuel' : (p.row_count - s.offset).toNat ≤ rest.length + 1 := by
        simpa using hfuel
      by_cases h1 : s.offset < p.row_count
      · obtain ⟨R, hor, hRoff, hRpc⟩ :=
          migrateStep_productive p s e (hall e (List.mem_cons_self e rest))
        have hlen1 : 1 ≤ (envRows e).length :=
          List.length_pos.mpr (hall e (List.mem_cons_self e rest)).2.1
        have hlen1' : (1 : Int) ≤ ((envRows e).length : Int) := by
          exact_mod_cast hlen1
        rw [runLoop, if_pos h1]
        rcases hstep : migrateStep p s e with ⟨out, acts⟩
        rw [hstep] at hor
        rcases hor with ⟨hnext, hlt⟩ | ⟨hbrk, hge⟩
        · have hout : out = .next R := hnext
          subst hout
          obtain ⟨s', hs', hge'⟩ := ih R
            (fun x hx => hall x (List.mem_cons_of_mem e hx))
            (by omega) (Or.inl hlt)
          refine ⟨s', ?_, hge'⟩
          simpa using hs'
        · have hout : out = .brk R := hbrk
          subst hout
          refine ⟨R, ?_, hge⟩
          simp [hRpc]
      · have hge : p.row_count ≤ s.offset := not_lt.mp h1
        have hpc : s.progress_created = true := by
          rcases hstart with h | h
          · exact absurd h h1
          · exact h
        refine ⟨s, ?_, hge⟩
        rw [runLoop, if_neg h1]
        simp [hpc]

/-- C10: with no connection-lost (errno 2013) error, every continuing
iteration of the main loop advances the offset by the number of rows fetched
in that iteration (at least 1) — including when the duplicate-key single-row
fallback ran, which still advances by the whole batch — and every other
iteration ends the loop; hence with enough oracles the loop never runs out
of fuel (terminates), and a run of productive iterations ends in
`(True, None)` with the offset at or past the total row count. -/
theorem C10_loop_progress_termination :
    (∀ (p : TableParams) (s : LoopState) (e : IterEnv),
      No2013 e → s.lastRows ≠ some [] →
      ∀ s', (migrateStep p s e).out = .next s' →
        s.offset + 1 ≤ s'.offset ∧
        (∀ rows, e.fetch = .ok rows → s'.offset = s.offset + rows.length)) ∧
    (∀ (p : TableParams) (envs : List IterEnv) (s : LoopState),
      (∀ e ∈ envs, No2013 e) → s.lastRows ≠ some [] →
      (p.row_count - s.offset).toNat ≤ envs.length →
      (runLoop p envs s).1.isFuelOut = false) ∧
    (∀ (p : TableParams) (envs : List IterEnv) (s : LoopState),
      (∀ e ∈ envs, ProductiveEnv p e) →
      (p.row_count - s.offset).toNat ≤ envs.length →
      (s.offset < p.row_count ∨ s.progress_created = true) →
      ∃ s', (runLoop p envs s).1 = .finished true Option.none (some s') ∧
        p.row_count ≤ s'.offset) := by
  refine ⟨?_, runLoop_no_fuelOut, runLoop_drain⟩
  intro p s e h2013 hinv s' hnext
  obtain ⟨h1, _, h3⟩ := migrateStep_no2013_next p s e h2013 hinv s' hnext
  exact ⟨h1, h3⟩

/-- C10 witness: a 3-row table drained in three one-row productive batches
terminates with `(True, None)` and an offset at the row count. -/
theorem C10_loop_progress_termination_witness :
    ∃ s', (runLoop
      { pk := "`id`", pk_active := false, pk_index := 0, row_count := 3,
        calculated_batch_size := 2048, db_name := "appdb", table_name := "t",
        columns := [("id", FieldType.LONG)] }
      (List.replicate 3
        { fetch := .ok [[PyObj.intv 1]], insert := Option.none,
          single := fun _ => Option.none, reconnect := Option.none,
          elapsed := 1 })
      { batch_size := 2048, increment_batch := 0, increment_batch_blocks := 0,
        offset := 0, first_pk := 0, lastRows := Option.none,
        progress_created := false }).1 = .finished true Option.none (some s') ∧
      (3 : Int) ≤ s'.offset :=
  C10_loop_progress_termination.2.2 _ _ _
    (fun e he => by
      rw [List.eq_of_mem_replicate he]
      exact ⟨rfl, by decide, rfl, fun hh => absurd hh (by decide)⟩)
    (by decide) (Or.inl (by decide))

end Migrator
